import Mathlib

/-!
Verification development for the slide-template-to-document rendering
pipeline of the preza backend.

The Python sources are embedded shallowly:

* `services/pptx_service.py` — content filtering per layout kind
  (`_filter_content_for_layout`), theme tables, the layout selector
  (`_get_slide_style`), bullet-content processing
  (`_process_bullet_content`), the per-layout slide builders, and the
  image downloader (`_download_image` / `_convert_to_jpg`).
* `app/api/endpoints.py` — the JSON slide builder
  (`build_presentation_from_json`), field normalization, `_flatten_list`,
  `_nice_title`, and `_download_image_to_tmp`.

Python strings are modeled as `String` / `List Char`; Python `None` and
JSON values as the `JValue` inductive; machine-level concerns (actual
file IO, the network, the pptx XML) are abstracted into explicit
parameters (local files become records, HTTP traffic becomes an
`HttpOutcome` value), keeping every branch of the translated control
flow intact.
-/

namespace Preza

/-! ## Python string primitives -/

/-- Whitespace characters recognized by the Python str.strip method
(the ASCII subset, which is all the pipeline ever feeds it). -/
def pyIsSpace (c : Char) : Bool :=
  c = ' ' || c = '\t' || c = '\n' || c = '\r' || c = '\x0b' || c = '\x0c'

/-- Embedding of Python str.strip: drop whitespace from both ends. -/
def pyStrip (l : List Char) : List Char :=
  ((l.dropWhile pyIsSpace).reverse.dropWhile pyIsSpace).reverse

/-- Embedding of Python str.split with separator a single newline:
splitting the empty string gives one empty piece, and every newline
separates two (possibly empty) pieces. -/
def splitNl : List Char → List (List Char)
  | [] => [[]]
  | c :: cs =>
    if c = '\n' then [] :: splitNl cs
    else
      match splitNl cs with
      | [] => [[c]]
      | l :: ls => (c :: l) :: ls

/-- Embedding of Python newline-join: interleave a newline between the
pieces. -/
def joinNl : List (List Char) → List Char
  | [] => []
  | [l] => l
  | l :: l2 :: ls => l ++ '\n' :: joinNl (l2 :: ls)

/-- The test `line.strip().startswith(dash)` used throughout the
renderer to recognize bullet lines. -/
def isBulletLine (l : List Char) : Bool :=
  match pyStrip l with
  | [] => false
  | c :: _ => c = '-'

/-- Embedding of Python str.replace with an empty replacement: delete
every occurrence of `sub`, scanning left to right. -/
def removeSub (sub : List Char) : List Char → List Char
  | [] => []
  | c :: rest =>
    if h : 0 < sub.length ∧ sub.isPrefixOf (c :: rest) = true then
      removeSub sub ((c :: rest).drop sub.length)
    else
      c :: removeSub sub rest
termination_by l => l.length
decreasing_by
  · simp only [List.length_drop, List.length_cons]
    omega
  · simp only [List.length_cons]
    omega

/-- Substring membership, Python `sub in s` on strings. -/
def containsSubAux (sub : List Char) : List Char → Bool
  | [] => sub.isEmpty
  | c :: rest => sub.isPrefixOf (c :: rest) || containsSubAux sub rest

/-- Substring membership lifted to `String`. -/
def containsSub (s sub : String) : Bool :=
  containsSubAux sub.data s.data

/-! ## pptx_service: content filtering (`_filter_content_for_layout`) -/

/-- The three layouts that only show bullet points (source line 39). -/
def bulletOnlyLayouts : List String := ["image_left", "image_right", "image_top"]

/-- Embedding of `PPTXService._filter_content_for_layout`: for the three
bullet-only layouts keep only the lines whose stripped form starts with
a dash and rejoin them with newlines; all other layouts pass the content
through unchanged, as does empty content. -/
def filterContentForLayout (content : String) (layoutType : String) : String :=
  if content = "" then content
  else if layoutType ∈ bulletOnlyLayouts then
    String.mk (joinNl ((splitNl content.data).filter isBulletLine))
  else content

/-- Embedding of `PPTXService._clean_markdown`: the five sequential
str.replace calls deleting asterisks and hashes, then a strip. -/
def cleanMarkdown (text : String) : String :=
  if text = "" then ""
  else
    let t1 := removeSub ['*', '*'] text.data
    let t2 := removeSub ['*'] t1
    let t3 := removeSub ['#', '#', '#'] t2
    let t4 := removeSub ['#', '#'] t3
    let t5 := removeSub ['#'] t4
    String.mk (pyStrip t5)

/-- Two-digit zero-padded number, the Python format spec 02d applied to
the positive bullet counter. -/
def twoDigit (n : Nat) : String :=
  if n < 10 then "0" ++ toString n else toString n

/-! ## pptx_service: themes and the layout selector (`_get_slide_style`) -/

/-- RGB color triple, the pptx RGBColor value. -/
structure RGBColor where
  r : Nat
  g : Nat
  b : Nat
deriving DecidableEq

/-- One entry of the THEMES table; content background and text color are
optional, present only for the dark theme. -/
structure ThemeColors where
  title_bg : RGBColor
  accent : RGBColor
  circle1 : RGBColor
  circle2 : RGBColor
  content_bg : Option RGBColor
  text_color : Option RGBColor
deriving DecidableEq

/-- THEMES entry "minimal". -/
def themeMinimal : ThemeColors :=
  ⟨⟨99, 102, 241⟩, ⟨99, 102, 241⟩, ⟨99, 102, 241⟩, ⟨147, 51, 234⟩, none, none⟩

/-- THEMES entry "professional". -/
def themeProfessional : ThemeColors :=
  ⟨⟨30, 41, 59⟩, ⟨37, 99, 235⟩, ⟨37, 99, 235⟩, ⟨59, 130, 246⟩, none, none⟩

/-- THEMES entry "creative". -/
def themeCreative : ThemeColors :=
  ⟨⟨147, 51, 234⟩, ⟨236, 72, 153⟩, ⟨147, 51, 234⟩, ⟨236, 72, 153⟩, none, none⟩

/-- THEMES entry "academic". -/
def themeAcademic : ThemeColors :=
  ⟨⟨4, 120, 87⟩, ⟨5, 150, 105⟩, ⟨5, 150, 105⟩, ⟨16, 185, 129⟩, none, none⟩

/-- THEMES entry "dark", the one theme with content overrides. -/
def themeDark : ThemeColors :=
  ⟨⟨17, 24, 39⟩, ⟨34, 211, 238⟩, ⟨34, 211, 238⟩, ⟨6, 182, 212⟩,
    some ⟨17, 24, 39⟩, some ⟨243, 244, 246⟩⟩

/-- The THEMES class attribute of PPTXService. -/
def THEMES : List (String × ThemeColors) :=
  [("minimal", themeMinimal), ("professional", themeProfessional),
   ("creative", themeCreative), ("academic", themeAcademic), ("dark", themeDark)]

/-- Embedding of `PPTXService._get_theme_colors`: dictionary lookup with
fallback to the minimal theme for unknown style keys. -/
def getThemeColors (style : String) : ThemeColors :=
  match THEMES.find? (fun p => p.1 == style) with
  | some p => p.2
  | none => themeMinimal

/-- One entry of the styles list built inside `_get_slide_style`. -/
structure SlideStyle where
  layout : String
  bullet_type : String
  accent_color : RGBColor
  circle_colors : List RGBColor
  text_alignment : String
  content_bg : RGBColor
  text_color : RGBColor
deriving DecidableEq

/-- The styles list of `_get_slide_style`, in declaration order; the
common properties default the content background to white and the text
color to gray-900 when the theme has no override. -/
def stylesList (tc : ThemeColors) : List SlideStyle :=
  let cbg := tc.content_bg.getD ⟨255, 255, 255⟩
  let tcol := tc.text_color.getD ⟨17, 24, 39⟩
  [⟨"image_left", "numbers", tc.accent, [tc.circle1, tc.circle2], "left", cbg, tcol⟩,
   ⟨"image_right", "dots", tc.accent, [tc.circle1, tc.circle2], "left", cbg, tcol⟩,
   ⟨"text_only", "numbers", tc.accent, [tc.circle1, tc.circle2], "center", cbg, tcol⟩,
   ⟨"split_content", "dots", tc.accent, [tc.circle1, tc.circle2], "left", cbg, tcol⟩,
   ⟨"image_top", "numbers", tc.accent, [tc.circle1, tc.circle2], "center", cbg, tcol⟩,
   ⟨"grid_layout", "dots", tc.accent, [tc.circle1, tc.circle2], "left", cbg, tcol⟩]

/-- The six layout kinds in declaration order. -/
def layoutKindNames : List String :=
  ["image_left", "image_right", "text_only", "split_content", "image_top", "grid_layout"]

/-- Junk style used as the default of a list lookup whose index is
always in bounds; it never reaches any output. -/
def junkStyle (tc : ThemeColors) : SlideStyle :=
  ⟨"", "", tc.accent, [], "", ⟨255, 255, 255⟩, ⟨17, 24, 39⟩⟩

/-- The final fallback of `_get_slide_style`: sequential cycling through
the styles list at the clamped content slide index (slide number minus
two). -/
def getSlideStyleFallback (slideNumber : Int)
    (presentationStyle : String) : SlideStyle :=
  (stylesList (getThemeColors presentationStyle)).getD
    ((max 0 (slideNumber - 2)).toNat
      % (stylesList (getThemeColors presentationStyle)).length)
    (junkStyle (getThemeColors presentationStyle))

/-- Embedding of `PPTXService._get_slide_style`: the content slide index
is the slide number minus two (slide one is the title slide); a truthy
layout-order list with a nonnegative index selects the named style from
the styles list, everything else falls back to sequential cycling. -/
def getSlideStyle (slideNumber : Int) (layoutOrder : Option (List String))
    (presentationStyle : String) : SlideStyle :=
  match layoutOrder with
  | some lo =>
    if lo ≠ [] ∧ 0 ≤ slideNumber - 2 then
      match (stylesList (getThemeColors presentationStyle)).find?
          (fun st => st.layout
            == lo.getD ((slideNumber - 2).toNat % lo.length) "") with
      | some st => st
      | none => getSlideStyleFallback slideNumber presentationStyle
    else getSlideStyleFallback slideNumber presentationStyle
  | none => getSlideStyleFallback slideNumber presentationStyle

/-! ## pptx_service: bullet content processing (`_process_bullet_content`) -/

/-- One emitted text paragraph: either a bullet (accent-colored label
run followed by the item text) or a plain paragraph. -/
inductive TextElem where
  | bullet (label : String) (text : String)
  | plain (text : String)
deriving DecidableEq

/-- Whether an emitted paragraph is a bullet. -/
def TextElem.isBulletElem : TextElem → Bool
  | .bullet _ _ => true
  | .plain _ => false

/-- The item text of an emitted paragraph. -/
def TextElem.textOf : TextElem → String
  | .bullet _ t => t
  | .plain t => t

/-- The label runs emitted before a bullet item: a zero-padded counter
with a period for the numbers style, a filled dot otherwise. -/
def bulletLabel (style : SlideStyle) (count : Nat) : String :=
  if style.bullet_type = "numbers" then twoDigit count ++ ".  " else "●" ++ "  "

/-- The item text of a bullet line: strip, drop the dash, strip again
(`line.strip()[1:].strip()`). -/
def bulletText (l : List Char) : String :=
  String.mk (pyStrip ((pyStrip l).drop 1))

/-- The loop body of `_process_bullet_content`: skip blank lines, turn
dash lines into bullets with a running counter, and keep other lines as
markdown-cleaned plain paragraphs. -/
def processLines (style : SlideStyle) : Nat → List (List Char) → List TextElem
  | _, [] => []
  | count, l :: rest =>
    if pyStrip l = [] then processLines style count rest
    else if isBulletLine l then
      TextElem.bullet (bulletLabel style (count + 1)) (bulletText l)
        :: processLines style (count + 1) rest
    else
      TextElem.plain (cleanMarkdown (String.mk l)) :: processLines style count rest

/-- Embedding of `PPTXService._process_bullet_content`. -/
def processBulletContent (content : String) (style : SlideStyle) : List TextElem :=
  processLines style 0 (splitNl content.data)

/-! ## pptx_service: the per-layout slide builders -/

/-- The slide row handed to `_add_slide`: title, content text, image
reference and layout tag, as stored in the slides table. -/
structure SlideData where
  title : String
  content : String
  image_url : Option String
  image_alt : Option String
  layout : String
deriving DecidableEq

/-- The image container emitted by the image-bearing layouts: the two
decorative circle colors drawn at its corners. -/
structure ImageBlock where
  circleColors : List RGBColor
deriving DecidableEq

/-- The text portion shared by `_add_slide_content`: title paragraph,
the always-present accent line, and the processed content paragraphs. -/
structure ContentRender where
  title : String
  hasAccentLine : Bool
  elems : List TextElem
deriving DecidableEq

/-- Output of the image-left and image-right builders: optional image
block plus the text column geometry (hundredths of an inch) and the text
content. -/
structure LayoutRender where
  image : Option ImageBlock
  textLeft : Nat
  textWidth : Nat
  content : ContentRender
deriving DecidableEq

/-- Embedding of `PPTXService._add_slide_content`: title, accent line,
and the bullet-processed content when the content string is truthy. -/
def addSlideContentModel (title : String) (content : String)
    (style : SlideStyle) : ContentRender :=
  { title := title, hasAccentLine := true,
    elems := if content ≠ "" then processBulletContent content style else [] }

/-- Embedding of `PPTXService._create_image_left_layout`: content is
filtered for the image_left kind; with a resolved image the text column
sits at 6.7 in with width 6.1 in, otherwise full width at 1 in. -/
def createImageLeftLayout (sd : SlideData) (imagePath : Option String)
    (style : SlideStyle) : LayoutRender :=
  let filtered := filterContentForLayout sd.content "image_left"
  match imagePath with
  | some _ =>
    { image := some { circleColors := style.circle_colors },
      textLeft := 670, textWidth := 610,
      content := addSlideContentModel sd.title filtered style }
  | none =>
    { image := none, textLeft := 100, textWidth := 1133,
      content := addSlideContentModel sd.title filtered style }

/-- Embedding of `PPTXService._create_image_right_layout`: content is
filtered for the image_right kind; text on the left. -/
def createImageRightLayout (sd : SlideData) (imagePath : Option String)
    (style : SlideStyle) : LayoutRender :=
  let filtered := filterContentForLayout sd.content "image_right"
  match imagePath with
  | some _ =>
    { image := some { circleColors := style.circle_colors },
      textLeft := 100, textWidth := 610,
      content := addSlideContentModel sd.title filtered style }
  | none =>
    { image := none, textLeft := 100, textWidth := 1133,
      content := addSlideContentModel sd.title filtered style }

/-- Output of the image-top builder: the title is positioned below the
banner image and the content paragraphs are emitted directly. -/
structure TopLayoutRender where
  hasImage : Bool
  textTop : Nat
  title : String
  elems : List TextElem
deriving DecidableEq

/-- Embedding of `PPTXService._create_image_top_layout`: content is
filtered for the image_top kind; the text block starts at 3.4 in below a
resolved banner image, at 1 in otherwise. -/
def createImageTopLayout (sd : SlideData) (imagePath : Option String)
    (style : SlideStyle) : TopLayoutRender :=
  let filtered := filterContentForLayout sd.content "image_top"
  { hasImage := imagePath.isSome,
    textTop := if imagePath.isSome then 340 else 100,
    title := sd.title,
    elems := if filtered ≠ "" then processBulletContent filtered style else [] }

/-! ## pptx_service: the grid layout (`_create_grid_layout`) -/

/-- The four fixed quadrant positions (hundredths of an inch). -/
def gridPositions : List (Nat × Nat) :=
  [(100, 230), (730, 230), (100, 480), (730, 480)]

/-- One quadrant box of the grid layout. -/
structure GridBox where
  pos : Nat × Nat
  badge : Nat
  text : String
  borderColor : RGBColor
  bgColor : RGBColor
deriving DecidableEq

/-- Output of the grid layout builder. -/
structure GridRender where
  title : String
  accent : RGBColor
  boxes : List GridBox
deriving DecidableEq

/-- The line comprehension of `_create_grid_layout`: stripped lines
whose stripped form starts with a dash. -/
def gridContentLines (content : String) : List (List Char) :=
  (splitNl content.data).filterMap
    (fun l => if isBulletLine l then some (pyStrip l) else none)

/-- Box background: dark gray on the dark content background, light
gray otherwise. -/
def gridBoxBg (style : SlideStyle) : RGBColor :=
  if style.content_bg = ⟨17, 24, 39⟩ then ⟨31, 41, 55⟩ else ⟨248, 250, 252⟩

/-- The box-building loop of `_create_grid_layout`: one box per line at
the next grid position, numbered badge, accent border; the loop breaks
once the positions run out. -/
def mkGridBoxes (style : SlideStyle) : Nat → List (List Char) → List GridBox
  | _, [] => []
  | i, l :: rest =>
    match gridPositions.get? i with
    | none => []
    | some p =>
      { pos := p, badge := i + 1,
        text := String.mk (pyStrip ((pyStrip l).drop 1)),
        borderColor := style.accent_color, bgColor := gridBoxBg style }
        :: mkGridBoxes style (i + 1) rest

/-- Embedding of `PPTXService._create_grid_layout`: the image path
parameter is accepted and never used; at most the first four dash lines
become quadrant boxes. -/
def createGridLayout (sd : SlideData) (imagePath : Option String)
    (style : SlideStyle) : GridRender :=
  { title := sd.title, accent := style.accent_color,
    boxes :=
      if sd.content ≠ "" then
        mkGridBoxes style 0 ((gridContentLines sd.content).take 4)
      else [] }

/-! ## pptx_service and endpoints: the image downloaders -/

/-- Abstract outcome of one HTTP GET: either the client raised (network
failure) or a response with a status code and content type arrived. -/
inductive HttpOutcome where
  | networkError
  | response (status : Nat) (contentType : String)
deriving DecidableEq

/-- Abstract local file written by the downloader: the extension chosen
from the content type and whether a JPEG transcode succeeded. -/
structure LocalFile where
  ext : String
  converted : Bool
deriving DecidableEq

/-- Extension selection of `_download_image`: default jpg, png or webp
when the content type mentions them. -/
def contentTypeExt (ct : String) : String :=
  if containsSub ct "png" then ".png"
  else if containsSub ct "webp" then ".webp"
  else ".jpg"

/-- Embedding of `PPTXService._convert_to_jpg`: a successful decode
yields a converted jpg file, a decode failure returns the original file
unchanged (the except branch returns image_path). -/
def convertToJpg (decodeOk : Bool) (orig : LocalFile) : LocalFile :=
  if decodeOk then { ext := ".jpg", converted := true } else orig

/-- The try body of `PPTXService._download_image` with the network and
the image decoder abstracted: a network error raises, a 200 response
saves a file and transcodes non-jpg extensions, any other status falls
through to the implicit None. -/
def downloadImageBody (outcome : HttpOutcome) (decodeOk : Bool) :
    Except String (Option LocalFile) :=
  match outcome with
  | .networkError => Except.error "network failure"
  | .response status ct =>
    if status = 200 then
      let f : LocalFile := { ext := contentTypeExt ct, converted := false }
      if f.ext ≠ ".jpg" then Except.ok (some (convertToJpg decodeOk f))
      else Except.ok (some f)
    else Except.ok none

/-- Embedding of `PPTXService._download_image`: the surrounding except
block maps every raised error to None. -/
def downloadImage (outcome : HttpOutcome) (decodeOk : Bool) : Option LocalFile :=
  match downloadImageBody outcome decodeOk with
  | .ok r => r
  | .error _ => none

/-- Suffix selection of `_download_image_to_tmp`: first matching
extension of the lowercased URL path, default png. -/
def tmpSuffix (urlPath : String) : String :=
  let p := urlPath.map Char.toLower
  if p.endsWith ".png" then ".png"
  else if p.endsWith ".jpg" then ".jpg"
  else if p.endsWith ".jpeg" then ".jpeg"
  else if p.endsWith ".webp" then ".webp"
  else ".png"

/-- The try body of `endpoints._download_image_to_tmp`: the httpx client
raises on network failure, raise_for_status raises on every non-2xx
status, otherwise the body is written to a temp file whose name is
abstracted by its suffix. -/
def downloadImageToTmpBody (urlPath : String) (outcome : HttpOutcome) :
    Except String (Option String) :=
  match outcome with
  | .networkError => Except.error "network failure"
  | .response status _ =>
    if 200 ≤ status ∧ status ≤ 299 then Except.ok (some (tmpSuffix urlPath))
    else Except.error "http status error"

/-- Embedding of `endpoints._download_image_to_tmp`: the bare except
maps every raised error to None. -/
def downloadImageToTmp (urlPath : String) (outcome : HttpOutcome) : Option String :=
  match downloadImageToTmpBody urlPath outcome with
  | .ok r => r
  | .error _ => none

/-! ## endpoints: JSON values and Python semantics -/

/-- Python values flowing through `build_presentation_from_json`: None,
booleans, integers, strings, lists and dicts (JSON-decoded data). -/
inductive JValue where
  | null
  | b (v : Bool)
  | i (v : Int)
  | s (v : String)
  | arr (items : List JValue)
  | obj (entries : List (String × JValue))

mutual

/-- Python equality on JValue, used where dict keys are compared. -/
def jbeq : JValue → JValue → Bool
  | .null, .null => true
  | .b x, .b y => x == y
  | .i x, .i y => x == y
  | .s x, .s y => x == y
  | .arr xs, .arr ys => jbeqList xs ys
  | .obj xs, .obj ys => jbeqObj xs ys
  | _, _ => false

/-- Elementwise `jbeq` on lists. -/
def jbeqList : List JValue → List JValue → Bool
  | [], [] => true
  | x :: xs, y :: ys => jbeq x y && jbeqList xs ys
  | _, _ => false

/-- Elementwise `jbeq` on dict entries. -/
def jbeqObj : List (String × JValue) → List (String × JValue) → Bool
  | [], [] => true
  | (k1, v1) :: xs, (k2, v2) :: ys => k1 == k2 && jbeq v1 v2 && jbeqObj xs ys
  | _, _ => false

end

/-- Python truthiness: None, False, zero, and empty containers and
strings are falsy. -/
def pyTruthy : JValue → Bool
  | .null => false
  | .b v => v
  | .i v => v != 0
  | .s v => v ≠ ""
  | .arr items => !items.isEmpty
  | .obj entries => !entries.isEmpty

/-- A single-quote character, used by the Python repr of strings. -/
def squote : String := String.singleton (Char.ofNat 39)

/-- Comma-space join for container reprs. -/
def joinCommaSp : List String → String
  | [] => ""
  | [x] => x
  | x :: y :: rest => x ++ ", " ++ joinCommaSp (y :: rest)

mutual

/-- Python repr of a JValue (the shape str falls back to on
containers). -/
def pyRepr : JValue → String
  | .null => "None"
  | .b true => "True"
  | .b false => "False"
  | .i n => toString n
  | .s v => squote ++ v ++ squote
  | .arr items => "[" ++ joinCommaSp (pyReprList items) ++ "]"
  | .obj entries => "\x7b" ++ joinCommaSp (pyReprObj entries) ++ "\x7d"

/-- Reprs of the items of a list. -/
def pyReprList : List JValue → List String
  | [] => []
  | v :: vs => pyRepr v :: pyReprList vs

/-- Reprs of the entries of a dict. -/
def pyReprObj : List (String × JValue) → List String
  | [] => []
  | (k, v) :: rest =>
    (squote ++ k ++ squote ++ ": " ++ pyRepr v) :: pyReprObj rest

end

/-- Python str() of a JValue: identity on strings, True and False and
None spelled out, repr on containers. -/
def pyStr : JValue → String
  | .null => "None"
  | .b true => "True"
  | .b false => "False"
  | .i n => toString n
  | .s v => v
  | .arr items => pyRepr (.arr items)
  | .obj entries => pyRepr (.obj entries)

/-- First entry of a dict with the given string key (Python dicts have
unique keys, so first-match lookup is dict lookup). -/
def lookupEntry (entries : List (String × JValue)) (k : String) : Option JValue :=
  match entries.find? (fun p => p.1 == k) with
  | some p => some p.2
  | none => none

/-- Python dict .get with a default. -/
def dictGetD (entries : List (String × JValue)) (k : String) (d : JValue) : JValue :=
  (lookupEntry entries k).getD d

/-- Python .get on a value expected to be a dict; looking up anything
else yields the default (a non-dict here would raise AttributeError in
Python, which never happens on the shapes the builder constructs). -/
def pyGetD (v : JValue) (k : String) (d : JValue) : JValue :=
  match v with
  | .obj entries => dictGetD entries k d
  | _ => d

/-! ## endpoints: field normalization and classification inputs -/

/-- The normalized field collection: dict entries whose keys are the
Python values taken from the id members (strings in every shape the API
produces, but Python would accept any hashable key). -/
abbrev Fields := List (JValue × JValue)

/-- Whether a field key equals a given string (Python k == "..."; a
non-string key never equals a string). -/
def keyIsStr (k : JValue) (t : String) : Bool :=
  match k with
  | .s v => v == t
  | _ => false

/-- Lookup in a normalized field collection by string key (the fval
lambda reads fields.get(k) for string literals k). -/
def fieldsLookup (fields : Fields) (k : String) : Option JValue :=
  match fields.find? (fun p => keyIsStr p.1 k) with
  | some p => some p.2
  | none => none

/-- Python dict insertion: replace the value in place when the key is
already present, append otherwise. -/
def dictInsert : Fields → JValue → JValue → Fields
  | [], k, v => [(k, v)]
  | (k0, v0) :: rest, k, v =>
    if jbeq k0 k then (k0, v) :: rest else (k0, v0) :: dictInsert rest k v

/-- The record built by the list-shape normalization comprehension:
a dict holding only the value member (absent values become None). -/
def normalizeRecord (entries : List (String × JValue)) : JValue :=
  .obj [("value", dictGetD entries "value" .null)]

/-- Embedding of the field normalization at the top of the slide loop
of `build_presentation_from_json`: a dict is used as is, a list is
turned into a dict keyed by each record id via a comprehension, and
anything else becomes the empty dict. -/
def normalizeFields : JValue → Fields
  | .obj entries => entries.map (fun p => (JValue.s p.1, p.2))
  | .arr items =>
    items.foldl
      (fun acc f =>
        match f with
        | .obj entries =>
          match lookupEntry entries "id" with
          | some idv => dictInsert acc idv (normalizeRecord entries)
          | none => acc
        | _ => acc)
      []
  | _ => []

/-- Embedding of the fval lambda: fields.get(k) guarded by truthiness,
then .get on the value member; a falsy record reads from the empty dict
and yields None. A truthy non-dict record would raise in Python and
never occurs in a normalized collection built from API shapes; it is
modeled as None. -/
def fval (fields : Fields) (k : String) : JValue :=
  match fieldsLookup fields k with
  | none => .null
  | some r =>
    if pyTruthy r then
      match r with
      | .obj entries => dictGetD entries "value" .null
      | _ => .null
    else .null

/-! ## endpoints: `_flatten_list` and `_nice_title` -/

/-- The inner loop of `_flatten_list` on a dict item: the string form of
the first member whose value is a scalar (str, int or bool; the model
carries no floats), in declaration order. -/
def firstScalarString : List (String × JValue) → Option String
  | [] => none
  | (_, v) :: rest =>
    match v with
    | .s sv => some sv
    | .i n => some (toString n)
    | .b true => some "True"
    | .b false => some "False"
    | _ => firstScalarString rest

/-- The contribution of one sequence item inside `_flatten_list`:
strings are kept, dicts contribute their first scalar member, and every
other item contributes nothing. -/
def flattenItem : JValue → List String
  | .s sv => [sv]
  | .obj entries => (firstScalarString entries).toList
  | _ => []

/-- The accumulation loop of `_flatten_list`. -/
def flattenListAux : List JValue → List String
  | [] => []
  | it :: rest => flattenItem it ++ flattenListAux rest

/-- Embedding of `endpoints._flatten_list`: non-lists flatten to
nothing. -/
def flattenList : JValue → List String
  | .arr items => flattenListAux items
  | _ => []

/-- Separator characters of the `_nice_title` regex character class. -/
def sepChar (c : Char) : Bool := c = '_' || c = '-'

/-- Worker for the regex substitution of `_nice_title`: a separator
opens a run and emits one space, further separators of the same run
emit nothing. -/
def subSepsAux (prevSep : Bool) : List Char → List Char
  | [] => []
  | c :: rest =>
    if sepChar c then
      (if prevSep then [] else [' ']) ++ subSepsAux true rest
    else c :: subSepsAux false rest

/-- The regex substitution of `_nice_title`: each maximal run of
underscores and dashes becomes one space. -/
def subSeps (l : List Char) : List Char := subSepsAux false l

/-- Python str.title on the ASCII letters the ids contain: a letter
after a non-letter is uppercased, a letter after a letter is
lowercased. -/
def titleCaseAux : Bool → List Char → List Char
  | _, [] => []
  | prevAlpha, c :: rest =>
    if c.isAlpha then
      (if prevAlpha then c.toLower else c.toUpper) :: titleCaseAux true rest
    else c :: titleCaseAux false rest

/-- Embedding of `endpoints._nice_title`: empty in, empty out; otherwise
collapse separator runs to spaces, strip, and title-case. -/
def niceTitle (s : String) : String :=
  if s = "" then ""
  else String.mk (titleCaseAux false (pyStrip (subSeps s.data)))

/-! ## endpoints: `build_presentation_from_json` -/

/-- One slide appended to the output document: the layout-0 title
slide, the layout-1 content slide (header, free-text paragraphs, bullet
paragraphs), or an appended image slide. -/
inductive RenderedSlide where
  | titleSlide (titleText : Option String) (subtitleText : Option String)
  | contentSlide (header : String) (texts : List String) (bullets : List String)
  | imageSlide (path : String) (caption : Option String)
deriving DecidableEq

/-- The value member of a field record; a non-dict record is modeled as
None (a truthy non-dict would raise in Python, see `fval`). -/
def recordValue (r : JValue) : JValue :=
  match r with
  | .obj entries => dictGetD entries "value" .null
  | _ => .null

/-- One iteration of the free-text collection loop: a string value
whose key is neither title nor subtitle contributes a paragraph. -/
def fieldText (p : JValue × JValue) : Option String :=
  match recordValue p.2 with
  | .s sv =>
    if keyIsStr p.1 "title" || keyIsStr p.1 "subtitle" then none else some sv
  | _ => none

/-- The free-text collection loop, in field order. -/
def textFields (fields : Fields) : List String :=
  fields.filterMap fieldText

/-- One iteration of the bullet collection loop: a list value is
flattened. -/
def fieldBullets (p : JValue × JValue) : List String :=
  match recordValue p.2 with
  | .arr items => flattenList (.arr items)
  | _ => []

/-- The bullet collection loop, in field order. -/
def bulletsOf (fields : Fields) : List String :=
  fields.flatMap fieldBullets

/-- The caption handed to `_add_image_slide`: the title member of the
image dict when truthy. -/
def captionOf (entries : List (String × JValue)) : Option String :=
  let c := dictGetD entries "title" .null
  if pyTruthy c then some (pyStr c) else none

/-- One iteration of the image-slide loop: a dict value with a truthy
url member is downloaded; a successful download appends an image
slide. -/
def fieldImage (dl : JValue → Option String) (p : JValue × JValue) :
    Option RenderedSlide :=
  match recordValue p.2 with
  | .obj entries =>
    if pyTruthy (dictGetD entries "url" .null) then
      match dl (dictGetD entries "url" .null) with
      | some path => some (RenderedSlide.imageSlide path (captionOf entries))
      | none => none
    else none
  | _ => none

/-- The image-slide loop shared by both paths, in field order. -/
def imageSlides (dl : JValue → Option String) (fields : Fields) :
    List RenderedSlide :=
  fields.filterMap (fieldImage dl)

/-- A Python or-chain over values: the first truthy one, or the last
value when all are falsy. -/
def orChain : List JValue → JValue
  | [] => .null
  | [x] => x
  | x :: y :: rest => if pyTruthy x then x else orChain (y :: rest)

/-- Newline join of already-stringified parts (the subtitle parts). -/
def joinNlStr : List String → String
  | [] => ""
  | [x] => x
  | x :: y :: rest => x ++ "\n" ++ joinNlStr (y :: rest)

/-- The id of a slide object as handed to `_nice_title` (default empty
string; a non-string id would make the Python regex call raise and
never occurs in API shapes). -/
def idString (slideObj : JValue) : String :=
  match pyGetD slideObj "id" (JValue.s "") with
  | .s sv => sv
  | _ => ""

/-- The body of the slide loop of `build_presentation_from_json`, after
the field collection has been normalized: a truthy title or subtitle
field selects the title path (title text, joined subtitle parts, then
image slides); every other slide takes the content path (header from
the or-chain, free-text paragraphs, bullet paragraphs, then image
slides). -/
def renderSlideFields (dl : JValue → Option String) (docTitle : String)
    (slideTitle : JValue) (idStr : String) (fields : Fields) :
    List RenderedSlide :=
  if pyTruthy (fval fields "title") || pyTruthy (fval fields "subtitle") then
    let titleText :=
      if pyTruthy (fval fields "title") then some (pyStr (fval fields "title"))
      else none
    let subParts :=
      ([fval fields "subtitle", fval fields "presenter",
        fval fields "date"].filter pyTruthy).map pyStr
    let subtitleText :=
      if subParts.isEmpty then none else some (joinNlStr subParts)
    RenderedSlide.titleSlide titleText subtitleText :: imageSlides dl fields
  else
    let header :=
      pyStr (orChain [slideTitle, fval fields "section", fval fields "header",
        JValue.s (niceTitle idStr), JValue.s docTitle])
    RenderedSlide.contentSlide header (textFields fields) (bulletsOf fields)
      :: imageSlides dl fields

/-- One iteration of the slide loop: read the field collection (default
empty dict), normalize it, and render. -/
def renderSlideObj (dl : JValue → Option String) (docTitle : String)
    (slideObj : JValue) : List RenderedSlide :=
  renderSlideFields dl docTitle (pyGetD slideObj "title" .null)
    (idString slideObj)
    (normalizeFields (pyGetD slideObj "fields" (.obj [])))

/-- The slide list of a presentation payload: the slides member with
default and falsy fallback to the empty list (a truthy non-list would
raise in the Python loop and never occurs in API shapes). -/
def slidesOf (presentationData : JValue) : List JValue :=
  match pyGetD presentationData "slides" (.arr []) with
  | .arr items => items
  | _ => []

/-- Embedding of `build_presentation_from_json`: render every slide in
order; when the document holds no slide at all, append the single
fallback title slide carrying the document title. -/
def buildSlides (dl : JValue → Option String) (presentationData : JValue)
    (docTitle : String) : List RenderedSlide :=
  let out := (slidesOf presentationData).flatMap (renderSlideObj dl docTitle)
  if out.length = 0 then [RenderedSlide.titleSlide (some docTitle) none] else out

/-! ## observation helpers on rendered output -/

/-- Whether the first rendered slide of a loop iteration is the layout-0
title slide, i.e. whether the iteration took the title path. -/
def headIsTitleSlide : List RenderedSlide → Bool
  | .titleSlide _ _ :: _ => true
  | _ => false

/-- Free-text paragraphs of a rendered output, in order. -/
def slideTexts (l : List RenderedSlide) : List String :=
  l.flatMap
    (fun sl =>
      match sl with
      | .contentSlide _ ts _ => ts
      | _ => [])

/-- Bullet paragraphs of a rendered output, in order. -/
def slideBullets (l : List RenderedSlide) : List String :=
  l.flatMap
    (fun sl =>
      match sl with
      | .contentSlide _ _ bs => bs
      | _ => [])

/-- Whether a rendered slide is an appended image slide. -/
def isImageSlideB : RenderedSlide → Bool
  | .imageSlide _ _ => true
  | _ => false

/-- A download oracle that always fails (network down). -/
def dlNone : JValue → Option String := fun _ => none

/-! ## spec-side definitions, for comparison with the code -/

/-- Modelled from the spec: semantic field tags of section 4.1. -/
inductive FieldTag where
  | image
  | title
  | subtitle
  | bulletList
  | freeText
  | ignored
deriving DecidableEq

/-- Modelled from the spec: a field value is an image reference when it
is a record with type image or carries a url or query key. -/
def specIsImageValue : JValue → Bool
  | .obj entries =>
    jbeq (dictGetD entries "type" .null) (.s "image")
      || (lookupEntry entries "url").isSome
      || (lookupEntry entries "query").isSome
  | _ => false

/-- Modelled from the spec: the classification precedence of section
4.1 applied to one normalized field. -/
def specClassifyField (k : JValue) (r : JValue) : FieldTag :=
  let val := recordValue r
  if specIsImageValue val then .image
  else if keyIsStr k "title" then .title
  else if keyIsStr k "subtitle" then .subtitle
  else
    match val with
    | .arr _ => .bulletList
    | .s _ => .freeText
    | _ => .ignored

/-- Modelled from the spec: a slide is a title slide when it carries a
title or subtitle field and nothing else classifiable as content
(bullet list, free text, or image). -/
def specIsTitleSlide (fields : Fields) : Bool :=
  (fields.any
      (fun p =>
        specClassifyField p.1 p.2 == FieldTag.title
          || specClassifyField p.1 p.2 == FieldTag.subtitle))
    && !(fields.any
      (fun p =>
        specClassifyField p.1 p.2 == FieldTag.bulletList
          || specClassifyField p.1 p.2 == FieldTag.freeText
          || specClassifyField p.1 p.2 == FieldTag.image))

/-- Modelled from the spec: the item coercion claim C9 states — strings
kept, every scalar coerced to its string form, records contributing
their first scalar member, anything else nothing. -/
def specFlattenItem : JValue → List String
  | .s sv => [sv]
  | .i n => [toString n]
  | .b true => ["True"]
  | .b false => ["False"]
  | .obj entries => (firstScalarString entries).toList
  | _ => []

/-- Modelled from the spec: `_flatten_list` as claim C9 describes it. -/
def specFlattenList : JValue → List String
  | .arr items => items.flatMap specFlattenItem
  | _ => []

/-- Lexicographic order on char lists. -/
def lexLeChars : List Char → List Char → Bool
  | [], _ => true
  | _ :: _, [] => false
  | a :: as, b :: bs => if a = b then lexLeChars as bs else decide (a < b)

/-- Modelled from the spec: lexicographic comparison of field keys
(non-string keys sort first, irrelevant to the claims). -/
def keyLe (a b : JValue × JValue) : Bool :=
  match a.1, b.1 with
  | .s x, .s y => lexLeChars x.data y.data
  | .s _, _ => false
  | _, _ => true

/-- Insertion step of the lexicographic sort. -/
def insertByKey (x : JValue × JValue) : Fields → Fields
  | [] => [x]
  | y :: rest => if keyLe x y then x :: y :: rest else y :: insertByKey x rest

/-- Modelled from the spec: the field collection in lexicographic key
order. -/
def sortFieldsByKey : Fields → Fields
  | [] => []
  | x :: rest => insertByKey x (sortFieldsByKey rest)

/-- Modelled from the spec: the free-text paragraphs claim C5 predicts,
read in lexicographic key order. -/
def specLexTexts (fields : Fields) : List String :=
  textFields (sortFieldsByKey fields)

/-! ## claim-specific constructions -/

/-- List-shaped field collection: ordered records carrying id, type and
value members. -/
def mkListShape (recs : List (String × String × JValue)) : JValue :=
  .arr (recs.map
    (fun r => JValue.obj [("id", .s r.1), ("type", .s r.2.1), ("value", r.2.2)]))

/-- Map-shaped field collection equivalent to `mkListShape`: the same
keys mapping to records holding the same values. -/
def mkMapShape (recs : List (String × String × JValue)) : JValue :=
  .obj (recs.map (fun r => (r.1, JValue.obj [("value", r.2.2)])))

/-- A slide object carrying only a field collection. -/
def slideWithFields (f : JValue) : JValue := .obj [("fields", f)]

/-- The per-entry free-text contribution of a raw map-shaped collection
(the same test the text loop applies after normalization). -/
def mapEntryText (p : String × JValue) : Option String :=
  match recordValue p.2 with
  | .s sv => if p.1 == "title" || p.1 == "subtitle" then none else some sv
  | _ => none

/-- The per-entry bullet contribution of a raw map-shaped collection. -/
def mapEntryBullets (p : String × JValue) : List String :=
  match recordValue p.2 with
  | .arr items => flattenList (.arr items)
  | _ => []

/-- The per-entry image-slide contribution of a raw map-shaped
collection. -/
def mapEntryImage (dl : JValue → Option String) (p : String × JValue) :
    Option RenderedSlide :=
  match recordValue p.2 with
  | .obj entries =>
    if pyTruthy (dictGetD entries "url" .null) then
      match dl (dictGetD entries "url" .null) with
      | some path => some (RenderedSlide.imageSlide path (captionOf entries))
      | none => none
    else none
  | _ => none

/-- Concrete slide for claim C3: a truthy title field next to a bullet
list field. -/
def c3CexSlide : JValue :=
  .obj [("fields", .obj
    [("title", .obj [("value", .s "T")]),
     ("points", .obj [("value", .arr [.s "a", .s "b"])])])]

/-- Concrete slide for claim C5: a map-shaped collection whose entry
order (b before a) is not lexicographic. -/
def c5CexSlide : JValue :=
  .obj [("id", .s "s1"), ("fields", .obj
    [("b", .obj [("value", .s "x")]),
     ("a", .obj [("value", .s "y")])])]

/-! ## pptx_service: the stored-deck exporter (`export_to_pptx`) -/

/-- A row of the slides table as `export_to_pptx` reads it: the slide
number used for ordering plus the rendered slide data. -/
structure StoredSlide where
  slide_number : Int
  item : SlideData
deriving DecidableEq

/-- Output of `_create_title_slide`: theme title background, the slide
title, and the markdown-cleaned content as subtitle when truthy. -/
structure TitleSlideRender where
  background : RGBColor
  title : String
  subtitle : Option String
deriving DecidableEq

/-- Embedding of `PPTXService._create_title_slide`. -/
def createTitleSlide (sd : SlideData) (presentationStyle : String) :
    TitleSlideRender :=
  { background := (getThemeColors presentationStyle).title_bg,
    title := sd.title,
    subtitle := if sd.content ≠ "" then some (cleanMarkdown sd.content)
      else none }

/-- Output of `_create_text_only_layout`: the two decorative circles
(accent color and the second circle color) and the full content block
at the centered geometry. -/
structure TextOnlyRender where
  circleA : RGBColor
  circleB : RGBColor
  textLeft : Nat
  textWidth : Nat
  content : ContentRender
deriving DecidableEq

/-- Embedding of `PPTXService._create_text_only_layout`; the styles
list always carries two circle colors, so the index-1 lookup never
falls back to its junk default. -/
def createTextOnlyLayout (sd : SlideData) (style : SlideStyle) :
    TextOnlyRender :=
  { circleA := style.accent_color,
    circleB := style.circle_colors.getD 1 ⟨0, 0, 0⟩,
    textLeft := 200, textWidth := 933,
    content := addSlideContentModel sd.title sd.content style }

/-- The bullet comprehension of `_create_split_content_layout`: dash
lines stripped of the dash, capped at four. -/
def splitBulletTexts (content : String) : List String :=
  ((splitNl content.data).filterMap
    (fun l =>
      if isBulletLine l then
        some (String.mk (pyStrip ((pyStrip l).drop 1)))
      else none)).take 4

/-- The takeaways panel text of `_create_split_content_layout`: the
last nonempty non-bullet line, with one generic fallback sentence for
content without such a line and another for empty content. -/
def splitPanelText (content : String) : String :=
  if content ≠ "" then
    match ((splitNl content.data).filterMap
        (fun l =>
          if pyStrip l ≠ [] ∧ isBulletLine l = false then
            some (String.mk (pyStrip l))
          else none)).getLast? with
    | some t => t
    | none => "Стратегические выводы и основные рекомендации по этому разделу."
  else "Основные выводы и рекомендации по данной теме."

/-- Output of `_create_split_content_layout`: with an image, the
three-column design (bullets, image, takeaways panel); without one, the
plain full-width content fallback. -/
structure SplitContentRender where
  title : String
  withImage : Bool
  bulletTexts : List String
  panelText : Option String
  fallback : Option ContentRender
deriving DecidableEq

/-- Embedding of `PPTXService._create_split_content_layout`. -/
def createSplitContentLayout (sd : SlideData) (imagePath : Option String)
    (style : SlideStyle) : SplitContentRender :=
  match imagePath with
  | some _ =>
    { title := sd.title, withImage := true,
      bulletTexts := if sd.content ≠ "" then splitBulletTexts sd.content
        else [],
      panelText := some (splitPanelText sd.content),
      fallback := none }
  | none =>
    { title := sd.title, withImage := false, bulletTexts := [],
      panelText := none,
      fallback := some (addSlideContentModel sd.title sd.content style) }

/-- The routed result of `_create_content_slide`: one constructor per
layout strategy. -/
inductive ContentDispatch where
  | imageLeft (r : LayoutRender)
  | imageRight (r : LayoutRender)
  | textOnly (r : TextOnlyRender)
  | splitContent (r : SplitContentRender)
  | imageTop (r : TopLayoutRender)
  | gridLayout (r : GridRender)
deriving DecidableEq

/-- Embedding of `PPTXService._create_content_slide`: route on the
style layout name, defaulting to the image-left builder. -/
def createContentSlide (sd : SlideData) (imagePath : Option String)
    (style : SlideStyle) : ContentDispatch :=
  if style.layout = "image_left" then
    .imageLeft (createImageLeftLayout sd imagePath style)
  else if style.layout = "image_right" then
    .imageRight (createImageRightLayout sd imagePath style)
  else if style.layout = "text_only" then
    .textOnly (createTextOnlyLayout sd style)
  else if style.layout = "split_content" then
    .splitContent (createSplitContentLayout sd imagePath style)
  else if style.layout = "image_top" then
    .imageTop (createImageTopLayout sd imagePath style)
  else if style.layout = "grid_layout" then
    .gridLayout (createGridLayout sd imagePath style)
  else
    .imageLeft (createImageLeftLayout sd imagePath style)

/-- One slide that `_add_slide` appends to the pptx document: the
title-slide branch, or the content branch with its theme background and
routed layout. -/
inductive PptxSlide where
  | title (r : TitleSlideRender)
  | content (background : RGBColor) (d : ContentDispatch)
deriving DecidableEq

/-- Embedding of `PPTXService._add_slide`: the title-slide layout tag
selects the title branch, every other slide gets a selected style and
the content builder. -/
def addSlide (layoutOrder : Option (List String))
    (presentationStyle : String) (imagePath : Option String)
    (s : StoredSlide) : PptxSlide :=
  if s.item.layout = "title-slide" then
    .title (createTitleSlide s.item presentationStyle)
  else
    .content (getSlideStyle s.slide_number layoutOrder presentationStyle).content_bg
      (createContentSlide s.item imagePath
        (getSlideStyle s.slide_number layoutOrder presentationStyle))

/-- Stable insertion of a row into a list sorted by slide number
(Python sorted is stable; inserting before the first larger-or-equal
key preserves the original order of equal keys). -/
def insertSlideByNumber (x : StoredSlide) :
    List StoredSlide → List StoredSlide
  | [] => [x]
  | y :: rest =>
    if x.slide_number ≤ y.slide_number then x :: y :: rest
    else y :: insertSlideByNumber x rest

/-- Embedding of the `sorted(slides, key=...)` call of
`export_to_pptx`. -/
def sortSlidesByNumber : List StoredSlide → List StoredSlide
  | [] => []
  | x :: rest => insertSlideByNumber x (sortSlidesByNumber rest)

/-- The presentation row `export_to_pptx` loads: style key, the
optional persisted layout order, and the slide rows. -/
structure StoredPresentation where
  style : String
  layout_order : Option (List String)
  slides : List StoredSlide

/-- The slide-assembly loop of `export_to_pptx`: sort the rows by
slide number and append exactly one pptx slide per row (images land on
their own slide, never as extra slides); there is no fallback for an
empty deck. -/
def exportSlides (slides : List StoredSlide) (images : Int → Option String)
    (layoutOrder : Option (List String)) (presentationStyle : String) :
    List PptxSlide :=
  (sortSlidesByNumber slides).map
    (fun s => addSlide layoutOrder presentationStyle (images s.slide_number) s)

/-- Embedding of `PPTXService.export_to_pptx`: a missing presentation
raises, a found one assembles its rows with the downloaded image map
and the persisted layout order. -/
def exportToPptx (p : Option StoredPresentation)
    (images : Int → Option String) : Except String (List PptxSlide) :=
  match p with
  | none => Except.error "Презентация не найдена"
  | some pres =>
    Except.ok (exportSlides pres.slides images pres.layout_order pres.style)

/-! ## helper lemmas: line splitting and joining -/

/-- Splitting never yields the empty list of pieces. -/
theorem splitNl_ne_nil (cs : List Char) : splitNl cs ≠ [] := by
  cases cs with
  | nil => simp [splitNl]
  | cons c cs =>
    simp only [splitNl]
    split
    · simp
    · split <;> simp

/-- No piece produced by splitting contains a newline. -/
theorem not_newline_mem_splitNl (cs : List Char) :
    ∀ l ∈ splitNl cs, '\n' ∉ l := by
  induction cs with
  | nil =>
    intro l hl
    simp [splitNl] at hl
    simp [hl]
  | cons c cs ih =>
    intro l hl
    simp only [splitNl] at hl
    by_cases hc : c = '\n'
    · rw [if_pos hc] at hl
      rcases List.mem_cons.mp hl with h | h
      · simp [h]
      · exact ih l h
    · rw [if_neg hc] at hl
      cases hsp : splitNl cs with
      | nil => exact absurd hsp (splitNl_ne_nil cs)
      | cons t ts =>
        rw [hsp] at hl
        rcases List.mem_cons.mp hl with h | h
        · subst h
          intro hmem
          rcases List.mem_cons.mp hmem with h | h
          · exact hc h.symm
          · exact ih t (hsp ▸ List.mem_cons_self t ts) h
        · exact ih l (hsp ▸ List.mem_cons.mpr (Or.inr h))

/-- A newline-free character list splits into itself alone. -/
theorem splitNl_of_no_newline (l : List Char) (h : '\n' ∉ l) :
    splitNl l = [l] := by
  induction l with
  | nil => simp [splitNl]
  | cons c cs ih =>
    have hc : c ≠ '\n' := fun hx => h (hx ▸ List.mem_cons_self c cs)
    have hcs : '\n' ∉ cs := fun hx => h (List.mem_cons.mpr (Or.inr hx))
    simp only [splitNl, if_neg hc, ih hcs]

/-- Splitting a newline-free piece followed by a newline peels the
piece. -/
theorem splitNl_append (l : List Char) (cs : List Char) (h : '\n' ∉ l) :
    splitNl (l ++ '\n' :: cs) = l :: splitNl cs := by
  induction l with
  | nil => simp [splitNl]
  | cons c t ih =>
    have hc : c ≠ '\n' := fun hx => h (hx ▸ List.mem_cons_self c t)
    have ht : '\n' ∉ t := fun hx => h (List.mem_cons.mpr (Or.inr hx))
    rw [List.cons_append]
    simp only [splitNl, if_neg hc, ih ht]

/-- Splitting inverts joining on nonempty lists of newline-free
pieces. -/
theorem splitNl_joinNl (ls : List (List Char)) (hne : ls ≠ [])
    (hnn : ∀ l ∈ ls, '\n' ∉ l) : splitNl (joinNl ls) = ls := by
  induction ls with
  | nil => exact absurd rfl hne
  | cons l ls ih =>
    cases ls with
    | nil =>
      simp only [joinNl]
      exact splitNl_of_no_newline l (hnn l (List.mem_cons_self l []))
    | cons l2 ls2 =>
      have h1 : '\n' ∉ l := hnn l (List.mem_cons_self _ _)
      have h2 : ∀ x ∈ l2 :: ls2, '\n' ∉ x :=
        fun x hx => hnn x (List.mem_cons.mpr (Or.inr hx))
      simp only [joinNl]
      rw [splitNl_append l _ h1, ih (by simp) h2]

/-- A bullet line is nonempty. -/
theorem isBulletLine_ne_nil (l : List Char) (h : isBulletLine l = true) :
    l ≠ [] := by
  intro hl
  subst hl
  simp [isBulletLine, pyStrip] at h

/-- A bullet line has a nonempty strip. -/
theorem isBulletLine_strip_ne_nil (l : List Char) (h : isBulletLine l = true) :
    pyStrip l ≠ [] := by
  intro hs
  simp [isBulletLine, hs] at h

/-- Joining nonempty pieces yields a nonempty character list. -/
theorem joinNl_ne_nil (ls : List (List Char)) (hne : ls ≠ [])
    (hall : ∀ l ∈ ls, l ≠ []) : joinNl ls ≠ [] := by
  cases ls with
  | nil => exact absurd rfl hne
  | cons l ls =>
    cases ls with
    | nil => exact hall l (List.mem_cons_self _ _)
    | cons l2 ls2 =>
      simp [joinNl]

/-- Processing a list of bullet lines emits exactly one bullet element
per line, in order, carrying the stripped item text. -/
theorem processLines_bullets (style : SlideStyle) (ls : List (List Char))
    (hall : ∀ l ∈ ls, isBulletLine l = true) : ∀ n : Nat,
    ((processLines style n ls).map TextElem.textOf = ls.map bulletText)
    ∧ ∀ e ∈ processLines style n ls, e.isBulletElem = true := by
  induction ls with
  | nil => intro n; simp [processLines]
  | cons l ls ih =>
    intro n
    have hb : isBulletLine l = true := hall l (List.mem_cons_self _ _)
    have hs : pyStrip l ≠ [] := isBulletLine_strip_ne_nil l hb
    have hrest : ∀ x ∈ ls, isBulletLine x = true :=
      fun x hx => hall x (List.mem_cons.mpr (Or.inr hx))
    have ihn := ih hrest (n + 1)
    simp only [processLines, if_neg hs, if_pos hb, List.map_cons]
    constructor
    · simp only [ihn.1, TextElem.textOf]
    · intro e he
      rcases List.mem_cons.mp he with h | h
      · subst h; rfl
      · exact ihn.2 e h

/-- Core of the content-filtering invariant: on a bullet-only layout
with at least one bullet line present, the filtered content is nonempty
and processes to exactly the bullet lines. -/
theorem filter_then_process (c : String) (lt : String) (style : SlideStyle)
    (hlt : lt ∈ bulletOnlyLayouts)
    (hb : ∃ l ∈ splitNl c.data, isBulletLine l = true) :
    filterContentForLayout c lt ≠ ""
    ∧ ((processBulletContent (filterContentForLayout c lt) style).map
        TextElem.textOf = ((splitNl c.data).filter isBulletLine).map bulletText)
    ∧ ∀ e ∈ processBulletContent (filterContentForLayout c lt) style,
        e.isBulletElem = true := by
  obtain ⟨l0, hl0m, hl0b⟩ := hb
  have hc : c ≠ "" := by
    intro h
    subst h
    have : splitNl ("" : String).data = [[]] := rfl
    rw [this] at hl0m
    simp at hl0m
    subst hl0m
    simp [isBulletLine, pyStrip] at hl0b
  have hbl0 : l0 ∈ (splitNl c.data).filter isBulletLine :=
    List.mem_filter.mpr ⟨hl0m, hl0b⟩
  have hblne : (splitNl c.data).filter isBulletLine ≠ [] :=
    List.ne_nil_of_mem hbl0
  have hallb : ∀ l ∈ (splitNl c.data).filter isBulletLine,
      isBulletLine l = true := fun l hl => (List.mem_filter.mp hl).2
  have hallnn : ∀ l ∈ (splitNl c.data).filter isBulletLine, '\n' ∉ l :=
    fun l hl => not_newline_mem_splitNl c.data l (List.mem_filter.mp hl).1
  have hallne : ∀ l ∈ (splitNl c.data).filter isBulletLine, l ≠ [] :=
    fun l hl => isBulletLine_ne_nil l (hallb l hl)
  have hjoin : joinNl ((splitNl c.data).filter isBulletLine) ≠ [] :=
    joinNl_ne_nil _ hblne hallne
  have hfil : filterContentForLayout c lt
      = String.mk (joinNl ((splitNl c.data).filter isBulletLine)) := by
    simp [filterContentForLayout, hc, hlt]
  have hne : String.mk (joinNl ((splitNl c.data).filter isBulletLine)) ≠ "" := by
    intro h
    exact hjoin (congrArg String.data h)
  have hsplit : splitNl (String.mk
      (joinNl ((splitNl c.data).filter isBulletLine))).data
      = (splitNl c.data).filter isBulletLine :=
    splitNl_joinNl _ hblne hallnn
  refine ⟨hfil ▸ hne, ?_, ?_⟩
  · rw [hfil]
    unfold processBulletContent
    rw [hsplit]
    exact (processLines_bullets style _ hallb 0).1
  · rw [hfil]
    unfold processBulletContent
    rw [hsplit]
    exact (processLines_bullets style _ hallb 0).2

/-- With nonempty filtered content, the image-left builder emits the
processed filtered paragraphs, with or without an image. -/
theorem imageLeft_elems (sd : SlideData) (img : Option String)
    (style : SlideStyle)
    (hne : filterContentForLayout sd.content "image_left" ≠ "") :
    (createImageLeftLayout sd img style).content.elems
      = processBulletContent (filterContentForLayout sd.content "image_left")
          style := by
  cases img <;> simp [createImageLeftLayout, addSlideContentModel, hne]

/-- With nonempty filtered content, the image-right builder emits the
processed filtered paragraphs, with or without an image. -/
theorem imageRight_elems (sd : SlideData) (img : Option String)
    (style : SlideStyle)
    (hne : filterContentForLayout sd.content "image_right" ≠ "") :
    (createImageRightLayout sd img style).content.elems
      = processBulletContent (filterContentForLayout sd.content "image_right")
          style := by
  cases img <;> simp [createImageRightLayout, addSlideContentModel, hne]

/-- With nonempty filtered content, the image-top builder emits the
processed filtered paragraphs, with or without an image. -/
theorem imageTop_elems (sd : SlideData) (img : Option String)
    (style : SlideStyle)
    (hne : filterContentForLayout sd.content "image_top" ≠ "") :
    (createImageTopLayout sd img style).elems
      = processBulletContent (filterContentForLayout sd.content "image_top")
          style := by
  cases img <;> simp [createImageTopLayout, hne]

/-- Claim C1: for the image_left, image_right and image_top layouts,
when the slide content holds both bullet-prefixed and non-bullet lines,
the rendered text paragraphs are exactly the bullet-prefixed lines
(every element is a bullet and the item texts enumerate the bullet
lines in order), so non-bullet lines never appear; for the other three
layout kinds (text_only, split_content, grid_layout) the content filter
passes the content through with all lines intact. -/
theorem c1_image_layouts_bullets_only (sd : SlideData) (img : Option String)
    (style : SlideStyle)
    (hb : ∃ l ∈ splitNl sd.content.data, isBulletLine l = true)
    (hn : ∃ l ∈ splitNl sd.content.data,
      pyStrip l ≠ [] ∧ isBulletLine l = false) :
    (((createImageLeftLayout sd img style).content.elems.map TextElem.textOf
        = ((splitNl sd.content.data).filter isBulletLine).map bulletText)
      ∧ ∀ e ∈ (createImageLeftLayout sd img style).content.elems,
          e.isBulletElem = true)
    ∧ (((createImageRightLayout sd img style).content.elems.map TextElem.textOf
        = ((splitNl sd.content.data).filter isBulletLine).map bulletText)
      ∧ ∀ e ∈ (createImageRightLayout sd img style).content.elems,
          e.isBulletElem = true)
    ∧ (((createImageTopLayout sd img style).elems.map TextElem.textOf
        = ((splitNl sd.content.data).filter isBulletLine).map bulletText)
      ∧ ∀ e ∈ (createImageTopLayout sd img style).elems,
          e.isBulletElem = true)
    ∧ filterContentForLayout sd.content "text_only" = sd.content
    ∧ filterContentForLayout sd.content "split_content" = sd.content
    ∧ filterContentForLayout sd.content "grid_layout" = sd.content := by
  have hl := filter_then_process sd.content "image_left" style
    (by simp [bulletOnlyLayouts]) hb
  have hr := filter_then_process sd.content "image_right" style
    (by simp [bulletOnlyLayouts]) hb
  have ht := filter_then_process sd.content "image_top" style
    (by simp [bulletOnlyLayouts]) hb
  refine ⟨⟨?_, ?_⟩, ⟨?_, ?_⟩, ⟨?_, ?_⟩, ?_, ?_, ?_⟩
  · rw [imageLeft_elems sd img style hl.1]; exact hl.2.1
  · rw [imageLeft_elems sd img style hl.1]; exact hl.2.2
  · rw [imageRight_elems sd img style hr.1]; exact hr.2.1
  · rw [imageRight_elems sd img style hr.1]; exact hr.2.2
  · rw [imageTop_elems sd img style ht.1]; exact ht.2.1
  · rw [imageTop_elems sd img style ht.1]; exact ht.2.2
  · simp [filterContentForLayout, bulletOnlyLayouts]
  · simp [filterContentForLayout, bulletOnlyLayouts]
  · simp [filterContentForLayout, bulletOnlyLayouts]

/-- Witness for claim C1 at a concrete slide holding two bullet lines
and one key-insight line. -/
theorem c1_witness :
    (∃ l ∈ splitNl ("- a\nkey insight\n- b" : String).data,
      isBulletLine l = true)
    ∧ (∃ l ∈ splitNl ("- a\nkey insight\n- b" : String).data,
      pyStrip l ≠ [] ∧ isBulletLine l = false)
    ∧ (((createImageLeftLayout
          ⟨"T", "- a\nkey insight\n- b", none, none, "content"⟩ none
          ((stylesList themeMinimal).getD 0 (junkStyle themeMinimal))).content.elems.map TextElem.textOf
        = ((splitNl ("- a\nkey insight\n- b" : String).data).filter
            isBulletLine).map bulletText)
      ∧ ∀ e ∈ (createImageLeftLayout
          ⟨"T", "- a\nkey insight\n- b", none, none, "content"⟩ none
          ((stylesList themeMinimal).getD 0 (junkStyle themeMinimal))).content.elems,
          e.isBulletElem = true) :=
  ⟨by decide, by decide,
    (c1_image_layouts_bullets_only
      ⟨"T", "- a\nkey insight\n- b", none, none, "content"⟩ none
      ((stylesList themeMinimal).getD 0 (junkStyle themeMinimal)) (by decide) (by decide)).1⟩

/-- Claim C10: the content filter is idempotent for every content
string and layout type, and every line surviving one filtering pass
satisfies the bullet-line predicate. -/
theorem c10_filter_idempotent (c : String) (lt : String) :
    filterContentForLayout (filterContentForLayout c lt) lt
      = filterContentForLayout c lt
    ∧ ∀ l ∈ (splitNl c.data).filter isBulletLine, isBulletLine l = true := by
  constructor
  · by_cases hmem : lt ∈ bulletOnlyLayouts
    · by_cases hc : c = ""
      · subst hc
        simp [filterContentForLayout]
      · have hfil : filterContentForLayout c lt
            = String.mk (joinNl ((splitNl c.data).filter isBulletLine)) := by
          simp [filterContentForLayout, hc, hmem]
        by_cases hbl : (splitNl c.data).filter isBulletLine = []
        · rw [hfil, hbl]
          simp [filterContentForLayout, joinNl]
        · have hallb : ∀ l ∈ (splitNl c.data).filter isBulletLine,
              isBulletLine l = true := fun l hl => (List.mem_filter.mp hl).2
          have hallnn : ∀ l ∈ (splitNl c.data).filter isBulletLine,
              '\n' ∉ l :=
            fun l hl =>
              not_newline_mem_splitNl c.data l (List.mem_filter.mp hl).1
          have hallne : ∀ l ∈ (splitNl c.data).filter isBulletLine, l ≠ [] :=
            fun l hl => isBulletLine_ne_nil l (hallb l hl)
          have hjoin : joinNl ((splitNl c.data).filter isBulletLine) ≠ [] :=
            joinNl_ne_nil _ hbl hallne
          have hne : String.mk
              (joinNl ((splitNl c.data).filter isBulletLine)) ≠ "" :=
            fun h => hjoin (congrArg String.data h)
          have hsplit : splitNl (String.mk
              (joinNl ((splitNl c.data).filter isBulletLine))).data
              = (splitNl c.data).filter isBulletLine :=
            splitNl_joinNl _ hbl hallnn
          rw [hfil]
          simp only [filterContentForLayout, if_neg hne, if_pos hmem, hsplit]
          rw [List.filter_eq_self.mpr hallb]
    · simp [filterContentForLayout, hmem]
  · exact fun l hl => (List.mem_filter.mp hl).2

/-! ## claim C6: the grid layout -/

/-- The grid box loop on at most the remaining positions: texts are the
dash-stripped lines, badges run consecutively from the next position
number, borders are the accent color. -/
theorem mkGridBoxes_spec (style : SlideStyle) (ls : List (List Char)) :
    ∀ i : Nat, i + ls.length ≤ 4 →
    ((mkGridBoxes style i ls).map (fun bx => bx.text)
      = ls.map (fun l => String.mk (pyStrip ((pyStrip l).drop 1))))
    ∧ ((mkGridBoxes style i ls).map (fun bx => bx.badge)
      = List.range' (i + 1) ls.length)
    ∧ ∀ bx ∈ mkGridBoxes style i ls, bx.borderColor = style.accent_color := by
  induction ls with
  | nil => intro i _; simp [mkGridBoxes]
  | cons l ls ih =>
    intro i hle
    have hi : i < 4 := by
      simp only [List.length_cons] at hle
      omega
    have hi4 : i < gridPositions.length := hi
    have hp : gridPositions.get? i = some (gridPositions.get ⟨i, hi4⟩) :=
      List.get?_eq_get hi4
    have ihs := ih (i + 1) (by simp only [List.length_cons] at hle; omega)
    simp only [mkGridBoxes, hp, List.map_cons]
    refine ⟨?_, ?_, ?_⟩
    · rw [ihs.1]
    · rw [ihs.2.1]
      simp [List.range']
    · intro bx hbx
      rcases List.mem_cons.mp hbx with h | h
      · subst h; rfl
      · exact ihs.2.2 bx h

/-- Claim C6: the grid layout ignores any resolved image (its output is
independent of the image path argument), renders at most four boxes,
the box texts are exactly the first four dash lines with the dash
stripped (later bullets dropped), the badges are numbered 1..k, and
every box border uses the accent color. -/
theorem c6_grid_layout (sd : SlideData) (style : SlideStyle)
    (img1 img2 : Option String) :
    createGridLayout sd img1 style = createGridLayout sd img2 style
    ∧ (createGridLayout sd img1 style).boxes.length ≤ 4
    ∧ ((createGridLayout sd img1 style).boxes.map (fun bx => bx.text)
      = ((gridContentLines sd.content).take 4).map
          (fun l => String.mk (pyStrip ((pyStrip l).drop 1))))
    ∧ ((createGridLayout sd img1 style).boxes.map (fun bx => bx.badge)
      = List.range' 1 (createGridLayout sd img1 style).boxes.length)
    ∧ ∀ bx ∈ (createGridLayout sd img1 style).boxes,
        bx.borderColor = style.accent_color := by
  have hspec := mkGridBoxes_spec style ((gridContentLines sd.content).take 4) 0
    (by
      have := List.length_take_le 4 (gridContentLines sd.content)
      omega)
  by_cases hc : sd.content = ""
  · have hempty : gridContentLines "" = [] := rfl
    refine ⟨rfl, ?_, ?_, ?_, ?_⟩ <;>
      simp [createGridLayout, hc, hempty]
  · have hboxes : (createGridLayout sd img1 style).boxes
        = mkGridBoxes style 0 ((gridContentLines sd.content).take 4) := by
      simp [createGridLayout, hc]
    have hlen : (createGridLayout sd img1 style).boxes.length
        = ((gridContentLines sd.content).take 4).length := by
      rw [hboxes]
      have := congrArg List.length hspec.1
      simpa using this
    refine ⟨rfl, ?_, ?_, ?_, ?_⟩
    · rw [hlen]
      exact List.length_take_le 4 _
    · rw [hboxes]; exact hspec.1
    · rw [hlen, hboxes]
      simpa using hspec.2.1
    · rw [hboxes]; exact hspec.2.2

/-! ## claim C2: the layout selector -/

/-- The styles list enumerates the six layout kinds in declaration
order, for every theme. -/
theorem stylesList_map_layout (tc : ThemeColors) :
    (stylesList tc).map SlideStyle.layout = layoutKindNames := rfl

/-- Looking up any of the six layout kind names in the styles list
succeeds and returns the style carrying that name. -/
theorem find_style_of_mem (tc : ThemeColors) (name : String)
    (hmem : name ∈ layoutKindNames) :
    ∃ st, (stylesList tc).find? (fun st => st.layout == name) = some st
      ∧ st.layout = name := by
  fin_cases hmem <;> exact ⟨_, rfl, rfl⟩

/-- The fallback branch of the selector: sequential cycling through the
styles list at the clamped content slide index. -/
theorem getSlideStyle_none (n : Int) (ps : String) :
    getSlideStyle n none ps
      = (stylesList (getThemeColors ps)).getD
          ((max 0 (n - 2)).toNat % (stylesList (getThemeColors ps)).length)
          (junkStyle (getThemeColors ps)) := rfl

/-- Claim C2: for every content slide number n (n ≥ 2; slide 1 is the
title slide, excluded by the claim) and every permutation of the six
layout kinds, the selected layout is the permutation entry at index
(n - 2) modulo the permutation length; with no permutation the selector
cycles through the six layout kinds in declaration order. The selector
is a pure function of its inputs, so equal inputs yield equal
outputs. -/
theorem c2_layout_selector (n : Int) (perm : List String) (ps : String)
    (hn : 2 ≤ n) (hperm : perm.Perm layoutKindNames) :
    (getSlideStyle n (some perm) ps).layout
      = perm.getD ((n - 2).toNat % perm.length) ""
    ∧ (getSlideStyle n none ps).layout
      = layoutKindNames.getD ((n - 2).toNat % layoutKindNames.length) "" := by
  have hlen : perm.length = 6 := by
    have := hperm.length_eq
    simpa [layoutKindNames] using this
  have hne : perm ≠ [] := by
    intro h
    rw [h] at hlen
    simp at hlen
  have hcsi : (0 : Int) ≤ n - 2 := by omega
  have hi : (n - 2).toNat % perm.length < perm.length :=
    Nat.mod_lt _ (by omega)
  have hgetD : perm.getD ((n - 2).toNat % perm.length) ""
      = perm.get ⟨(n - 2).toNat % perm.length, hi⟩ :=
    List.getD_eq_get perm "" hi
  have hmem : perm.getD ((n - 2).toNat % perm.length) "" ∈ layoutKindNames := by
    rw [hgetD]
    exact hperm.mem_iff.mp (List.get_mem perm _ hi)
  obtain ⟨st, hfind, hlay⟩ := find_style_of_mem (getThemeColors ps) _ hmem
  constructor
  · have hstep : getSlideStyle n (some perm) ps = st := by
      simp only [getSlideStyle]
      rw [if_pos ⟨hne, hcsi⟩]
      rw [hfind]
    rw [hstep, hlay]
  · rw [getSlideStyle_none]
    have hmax : max (0 : Int) (n - 2) = n - 2 := max_eq_right hcsi
    rw [hmax]
    have hj : (n - 2).toNat % 6 < 6 := Nat.mod_lt _ (by omega)
    have hcases : (n - 2).toNat % 6 = 0 ∨ (n - 2).toNat % 6 = 1
        ∨ (n - 2).toNat % 6 = 2 ∨ (n - 2).toNat % 6 = 3
        ∨ (n - 2).toNat % 6 = 4 ∨ (n - 2).toNat % 6 = 5 := by omega
    have h6 : (stylesList (getThemeColors ps)).length = 6 := rfl
    have hln : layoutKindNames.length = 6 := rfl
    rw [h6, hln]
    rcases hcases with h | h | h | h | h | h <;> rw [h] <;> rfl

/-- Witness for claim C2: slide 3 with a concrete shuffled permutation
under the dark theme picks the permutation entry at index 1, and the
fallback picks the second declared kind. -/
theorem c2_witness :
    ((2 : Int) ≤ 3)
    ∧ (["image_right", "grid_layout", "text_only", "split_content",
        "image_top", "image_left"].Perm layoutKindNames)
    ∧ ((getSlideStyle 3 (some ["image_right", "grid_layout", "text_only",
          "split_content", "image_top", "image_left"]) "dark").layout
        = ["image_right", "grid_layout", "text_only", "split_content",
            "image_top", "image_left"].getD
            (((3 : Int) - 2).toNat
              % (["image_right", "grid_layout", "text_only", "split_content",
                  "image_top", "image_left"] : List String).length) ""
      ∧ (getSlideStyle 3 none "dark").layout
        = layoutKindNames.getD
            (((3 : Int) - 2).toNat % layoutKindNames.length) "") :=
  ⟨by decide, by decide,
    c2_layout_selector 3
      ["image_right", "grid_layout", "text_only", "split_content",
        "image_top", "image_left"] "dark" (by decide) (by decide)⟩

/-! ## claim C7: asset resolution and degradation -/

/-- Counterexample for claim C7 as stated: a 200 response with png
content whose decode fails makes `_download_image` return the original
downloaded png path, not None (the except branch of `_convert_to_jpg`
returns image_path), contradicting the claim that a decode error yields
None. -/
theorem c7_counterexample :
    downloadImage (HttpOutcome.response 200 "image/png") false
      = some { ext := ".png", converted := false }
    ∧ downloadImage (HttpOutcome.response 200 "image/png") false
      ≠ (none : Option LocalFile) := by
  constructor
  · rfl
  · intro h
    simp [downloadImage, downloadImageBody, contentTypeExt, containsSub,
      containsSubAux, convertToJpg] at h

/-- Claim C7 amended: asset resolution always returns a value of the
optional-path type and never propagates a raised error (the except
blocks of both downloaders map every error to None); on network failure
or a non-2xx response the result is None; on a decode (transcode) error
the original downloaded file is returned unchanged rather than None;
and the slide that referenced a failed asset still renders with its
title and its full text content, degrading to the full-width no-image
geometry. -/
theorem c7_download_failure_degrades (d : Bool) (ct : String)
    (urlPath : String) (sd : SlideData) (style : SlideStyle)
    (img : Option String) :
    downloadImage HttpOutcome.networkError d = none
    ∧ (∀ s : Nat, s < 200 ∨ 300 ≤ s →
        downloadImage (HttpOutcome.response s ct) d = none)
    ∧ downloadImageToTmp urlPath HttpOutcome.networkError = none
    ∧ (∀ s : Nat, s < 200 ∨ 300 ≤ s →
        downloadImageToTmp urlPath (HttpOutcome.response s ct) = none)
    ∧ (contentTypeExt ct ≠ ".jpg" →
        downloadImage (HttpOutcome.response 200 ct) false
          = some { ext := contentTypeExt ct, converted := false })
    ∧ (createImageLeftLayout sd img style).content
        = (createImageLeftLayout sd none style).content
    ∧ (createImageLeftLayout sd none style).image = none
    ∧ (createImageLeftLayout sd none style).content.title = sd.title
    ∧ (createImageLeftLayout sd none style).textLeft = 100
    ∧ (createImageLeftLayout sd none style).textWidth = 1133 := by
  refine ⟨rfl, ?_, rfl, ?_, ?_, ?_, rfl, rfl, rfl, rfl⟩
  · intro s hs
    have hne : s ≠ 200 := by omega
    simp [downloadImage, downloadImageBody, hne]
  · intro s hs
    have hne : ¬(200 ≤ s ∧ s ≤ 299) := by omega
    simp [downloadImageToTmp, downloadImageToTmpBody, hne]
  · intro hext
    simp [downloadImage, downloadImageBody, hext, convertToJpg]
  · cases img <;> rfl

/-- Witness for claim C7 amended, at a 404 response, a webp content
type and a concrete slide. -/
theorem c7_witness :
    ((404 : Nat) < 200 ∨ 300 ≤ 404)
    ∧ (contentTypeExt "image/webp" ≠ ".jpg")
    ∧ downloadImage (HttpOutcome.response 404 "image/webp") false = none
    ∧ downloadImageToTmp "/a/b.png" (HttpOutcome.response 404 "image/webp")
        = none
    ∧ downloadImage (HttpOutcome.response 200 "image/webp") false
        = some { ext := contentTypeExt "image/webp", converted := false }
    ∧ (createImageLeftLayout ⟨"T", "- a", none, none, "content"⟩ none
        ((stylesList themeMinimal).getD 0 (junkStyle themeMinimal))).content.title
      = "T" := by
  have h := c7_download_failure_degrades false "image/webp" "/a/b.png"
    ⟨"T", "- a", none, none, "content"⟩
    ((stylesList themeMinimal).getD 0 (junkStyle themeMinimal)) none
  exact ⟨by decide, by decide, h.2.1 404 (by decide), h.2.2.2.1 404 (by decide),
    h.2.2.2.2.1 (by decide), h.2.2.2.2.2.2.2.1⟩

/-! ## claim C8: the empty-template fallback -/

/-- Stable insertion preserves the number of rows. -/
theorem insertSlideByNumber_length (x : StoredSlide) (l : List StoredSlide) :
    (insertSlideByNumber x l).length = l.length + 1 := by
  induction l with
  | nil => rfl
  | cons y rest ih =>
    simp only [insertSlideByNumber]
    split
    · simp
    · simp [ih]

/-- Sorting by slide number preserves the number of rows. -/
theorem sortSlidesByNumber_length (l : List StoredSlide) :
    (sortSlidesByNumber l).length = l.length := by
  induction l with
  | nil => rfl
  | cons x rest ih =>
    simp only [sortSlidesByNumber, insertSlideByNumber_length, ih,
      List.length_cons]

/-- Counterexample for claim C8 as stated: the stored-deck assembler
`export_to_pptx` has no zero-slide fallback, so exporting a stored
presentation with an empty slide list produces an artifact with zero
slides, refuting the universal slide-count bound the claim draws from
the cited code. -/
theorem c8_counterexample :
    exportToPptx (some ⟨"minimal", none, []⟩) (fun _ => none)
      = Except.ok ([] : List PptxSlide)
    ∧ ¬(1 ≤ ([] : List PptxSlide).length) :=
  ⟨rfl, by decide⟩

/-- Claim C8 amended: the zero-slide fallback exists only in the JSON
download builder — when its slide list yields zero renderable slides it
emits exactly one fallback title slide carrying the declared document
title, so its artifacts always hold at least one slide; the stored-deck
assembler `export_to_pptx` has no such fallback and emits exactly one
pptx slide per stored slide row, so an empty stored deck yields an
empty artifact. -/
theorem c8_fallback_only_json_builder (dl : JValue → Option String)
    (pd : JValue) (docTitle : String)
    (h : (slidesOf pd).flatMap (renderSlideObj dl docTitle) = []) :
    buildSlides dl pd docTitle = [RenderedSlide.titleSlide (some docTitle) none]
    ∧ (∀ (dl2 : JValue → Option String) (pd2 : JValue) (t2 : String),
        1 ≤ (buildSlides dl2 pd2 t2).length)
    ∧ ∀ (pres : StoredPresentation) (images : Int → Option String),
        exportToPptx (some pres) images
          = Except.ok
              (exportSlides pres.slides images pres.layout_order pres.style)
        ∧ (exportSlides pres.slides images pres.layout_order
            pres.style).length = pres.slides.length := by
  refine ⟨?_, ?_, ?_⟩
  · simp only [buildSlides, h]
    rfl
  · intro dl2 pd2 t2
    simp only [buildSlides]
    split
    · simp
    · next hlen => omega
  · intro pres images
    refine ⟨rfl, ?_⟩
    simp only [exportSlides, List.length_map, sortSlidesByNumber_length]

/-- Witness for claim C8 amended: the empty JSON payload renders zero
slides and gets the fallback, while a stored deck with one row exports
exactly one slide and an empty stored deck exports zero. -/
theorem c8_witness :
    ((slidesOf (JValue.obj [])).flatMap (renderSlideObj dlNone "My Deck") = [])
    ∧ buildSlides dlNone (JValue.obj []) "My Deck"
        = [RenderedSlide.titleSlide (some "My Deck") none]
    ∧ 1 ≤ (buildSlides dlNone (JValue.obj []) "My Deck").length
    ∧ (exportSlides [⟨1, ⟨"A", "", none, none, "title-slide"⟩⟩]
        (fun _ => none) none "dark").length
      = ([⟨1, ⟨"A", "", none, none, "title-slide"⟩⟩] :
          List StoredSlide).length
    ∧ (exportSlides [] (fun _ => none) none "dark").length
      = ([] : List StoredSlide).length :=
  ⟨rfl,
    (c8_fallback_only_json_builder dlNone (JValue.obj []) "My Deck" rfl).1,
    (c8_fallback_only_json_builder dlNone (JValue.obj []) "My Deck" rfl).2.1
      dlNone (JValue.obj []) "My Deck",
    ((c8_fallback_only_json_builder dlNone (JValue.obj []) "My Deck" rfl).2.2
      ⟨"dark", none, [⟨1, ⟨"A", "", none, none, "title-slide"⟩⟩]⟩
      (fun _ => none)).2,
    ((c8_fallback_only_json_builder dlNone (JValue.obj []) "My Deck" rfl).2.2
      ⟨"dark", none, []⟩ (fun _ => none)).2⟩

/-! ## claim C9: bullet coercion in `_flatten_list` -/

/-- Counterexample for claim C9 as stated: a top-level integer item is
a scalar, so the claim coerces it to its string form, but
`_flatten_list` only keeps string and dict items and drops it. -/
theorem c9_counterexample :
    flattenList (JValue.arr [JValue.i 5]) = []
    ∧ specFlattenList (JValue.arr [JValue.i 5]) = ["5"]
    ∧ flattenList (JValue.arr [JValue.i 5])
      ≠ specFlattenList (JValue.arr [JValue.i 5]) := by
  refine ⟨rfl, rfl, ?_⟩
  intro h
  simp [flattenList, flattenListAux, flattenItem, specFlattenList,
    specFlattenItem] at h

/-- Claim C9 amended: each sequence item contributes independently and
in order, at most one bullet string each; a string item is kept as is;
a record item contributes the string form of its first scalar-valued
member in declaration order (and nothing when no member is scalar),
with the remaining members discarded; every other item — including
non-string scalars such as integers and booleans, which the original
claim said were coerced — contributes nothing. -/
theorem c9_flatten_characterization (items : List JValue) :
    flattenList (JValue.arr items) = items.flatMap flattenItem
    ∧ (∀ sv : String, flattenItem (JValue.s sv) = [sv])
    ∧ (∀ m : Int, flattenItem (JValue.i m) = [])
    ∧ (∀ bv : Bool, flattenItem (JValue.b bv) = [])
    ∧ flattenItem JValue.null = []
    ∧ (∀ entries : List (String × JValue),
        flattenItem (JValue.obj entries) = (firstScalarString entries).toList
        ∧ (flattenItem (JValue.obj entries)).length ≤ 1)
    ∧ ∀ nested : List JValue, flattenItem (JValue.arr nested) = [] := by
  refine ⟨?_, fun _ => rfl, fun _ => rfl, ?_, rfl, ?_, fun _ => rfl⟩
  · show flattenListAux items = items.flatMap flattenItem
    induction items with
    | nil => rfl
    | cons it rest ih => simp [flattenListAux, ih]
  · intro bv; cases bv <;> rfl
  · intro entries
    refine ⟨rfl, ?_⟩
    cases h : firstScalarString entries <;> simp [flattenItem, h]

/-! ## claim C3: the title-path dispatch -/

/-- Counterexample for claim C3 as stated: a slide whose fields hold a
truthy title AND a bullet-list field takes the title path (the builder
tests only the title and subtitle values), although the claim requires
the content path because the slide carries content classifiable as a
bullet list. -/
theorem c3_counterexample :
    headIsTitleSlide (renderSlideObj dlNone "Presentation" c3CexSlide) = true
    ∧ renderSlideObj dlNone "Presentation" c3CexSlide
        = [RenderedSlide.titleSlide (some "T") none]
    ∧ specIsTitleSlide
        (normalizeFields (pyGetD c3CexSlide "fields" (JValue.obj []))) = false :=
  ⟨rfl, rfl, rfl⟩

/-- Claim C3 amended: a slide is rendered via the title-slide path if
and only if its normalized field collection carries a truthy title or
subtitle value — regardless of whatever other content the slide also
carries. This truthiness test, not an explicit layout tag, selects the
top-level rendering path. -/
theorem c3_title_path_iff (dl : JValue → Option String) (docTitle : String)
    (slideObj : JValue) :
    headIsTitleSlide (renderSlideObj dl docTitle slideObj)
      = (pyTruthy (fval (normalizeFields
            (pyGetD slideObj "fields" (JValue.obj []))) "title")
        || pyTruthy (fval (normalizeFields
            (pyGetD slideObj "fields" (JValue.obj []))) "subtitle")) := by
  unfold renderSlideObj renderSlideFields
  split
  · next h => simp only [headIsTitleSlide, h]
  · next h =>
    simp only [headIsTitleSlide]
    exact (Bool.not_eq_true _ ▸ (by simpa using h) : _ = false).symm

/-! ## claim C4: map shape versus list shape -/

/-- String keys compare under jbeq exactly as strings. -/
theorem jbeq_s (a b : String) :
    jbeq (JValue.s a) (JValue.s b) = (a == b) := rfl

/-- Inserting a fresh key into a Python dict appends the entry. -/
theorem dictInsert_fresh (acc : Fields) (k v : JValue)
    (h : ∀ p ∈ acc, jbeq p.1 k = false) :
    dictInsert acc k v = acc ++ [(k, v)] := by
  induction acc with
  | nil => rfl
  | cons q rest ih =>
    obtain ⟨k0, v0⟩ := q
    have h0 : jbeq k0 k = false := h (k0, v0) (List.mem_cons_self _ _)
    simp only [dictInsert, h0, Bool.false_eq_true, if_false, List.cons_append,
      List.cons.injEq, true_and]
    exact ih (fun p hp => h p (List.mem_cons.mpr (Or.inr hp)))

/-- The normalization comprehension over records with pairwise distinct
ids builds the entries in record order. -/
theorem foldl_norm_triples (recs : List (String × String × JValue)) :
    ∀ acc : Fields,
    (∀ r ∈ recs, ∀ p ∈ acc, jbeq p.1 (JValue.s r.1) = false) →
    ((recs.map (fun r => r.1)).Nodup) →
    recs.foldl
      (fun a r => dictInsert a (JValue.s r.1) (JValue.obj [("value", r.2.2)]))
      acc
      = acc ++ recs.map
          (fun r => (JValue.s r.1, JValue.obj [("value", r.2.2)])) := by
  induction recs with
  | nil => intro acc _ _; simp
  | cons r rest ih =>
    intro acc hfresh hnd
    simp only [List.foldl_cons]
    have hfr : ∀ p ∈ acc, jbeq p.1 (JValue.s r.1) = false :=
      fun p hp => hfresh r (List.mem_cons_self _ _) p hp
    rw [dictInsert_fresh acc _ _ hfr]
    simp only [List.map_cons, List.nodup_cons] at hnd
    have hfresh2 : ∀ r2 ∈ rest,
        ∀ p ∈ acc ++ [(JValue.s r.1, JValue.obj [("value", r.2.2)])],
        jbeq p.1 (JValue.s r2.1) = false := by
      intro r2 hr2 p hp
      rcases List.mem_append.mp hp with hmem | hmem
      · exact hfresh r2 (List.mem_cons.mpr (Or.inr hr2)) p hmem
      · have hpe : p = (JValue.s r.1, JValue.obj [("value", r.2.2)]) := by
          simpa using hmem
        subst hpe
        show jbeq (JValue.s r.1) (JValue.s r2.1) = false
        rw [jbeq_s]
        refine beq_eq_false_iff_ne.mpr ?_
        intro he
        exact hnd.1 (he ▸ List.mem_map_of_mem (fun x => x.1) hr2)
    rw [ih (acc ++ [(JValue.s r.1, JValue.obj [("value", r.2.2)])])
      hfresh2 hnd.2]
    simp

/-- Normalizing the list shape with distinct ids yields the records in
order, keyed by id and holding only the value member. -/
theorem normalizeFields_listShape (recs : List (String × String × JValue))
    (hnd : (recs.map (fun r => r.1)).Nodup) :
    normalizeFields (mkListShape recs)
      = recs.map
          (fun r => (JValue.s r.1, JValue.obj [("value", r.2.2)])) := by
  simp only [mkListShape, normalizeFields, List.foldl_map]
  exact foldl_norm_triples recs [] (by simp) hnd

/-- Normalizing the map shape tags the keys and keeps the records. -/
theorem normalizeFields_mapShape (recs : List (String × String × JValue)) :
    normalizeFields (mkMapShape recs)
      = recs.map
          (fun r => (JValue.s r.1, JValue.obj [("value", r.2.2)])) := by
  simp only [mkMapShape, normalizeFields, List.map_map]
  rfl

/-- Claim C4: equivalent map-shaped and list-shaped field collections
(same keys, same values, same order, distinct keys) normalize to the
same internal form, receive identical semantic classification, and
render to identical slide output. -/
theorem c4_shape_equivalence (recs : List (String × String × JValue))
    (hnd : (recs.map (fun r => r.1)).Nodup) :
    normalizeFields (mkListShape recs) = normalizeFields (mkMapShape recs)
    ∧ (normalizeFields (mkListShape recs)).map
        (fun p => specClassifyField p.1 p.2)
      = (normalizeFields (mkMapShape recs)).map
        (fun p => specClassifyField p.1 p.2)
    ∧ ∀ (dl : JValue → Option String) (docTitle : String),
        renderSlideObj dl docTitle (slideWithFields (mkListShape recs))
          = renderSlideObj dl docTitle (slideWithFields (mkMapShape recs)) := by
  have heq : normalizeFields (mkListShape recs)
      = normalizeFields (mkMapShape recs) :=
    (normalizeFields_listShape recs hnd).trans
      (normalizeFields_mapShape recs).symm
  refine ⟨heq, by rw [heq], ?_⟩
  intro dl docTitle
  have hW : ∀ X : JValue,
      renderSlideObj dl docTitle (slideWithFields X)
        = renderSlideFields dl docTitle JValue.null "" (normalizeFields X) :=
    fun X => rfl
  rw [hW, hW, heq]

/-- Witness for claim C4 at a two-record collection holding a text
field and an image field. -/
theorem c4_witness :
    (([("a", "text", JValue.s "x"),
        ("pic", "image", JValue.obj [("url", JValue.s "u")])].map
        (fun r => r.1)).Nodup)
    ∧ normalizeFields (mkListShape
        [("a", "text", JValue.s "x"),
          ("pic", "image", JValue.obj [("url", JValue.s "u")])])
      = normalizeFields (mkMapShape
        [("a", "text", JValue.s "x"),
          ("pic", "image", JValue.obj [("url", JValue.s "u")])])
    ∧ renderSlideObj dlNone "P" (slideWithFields (mkListShape
        [("a", "text", JValue.s "x"),
          ("pic", "image", JValue.obj [("url", JValue.s "u")])]))
      = renderSlideObj dlNone "P" (slideWithFields (mkMapShape
        [("a", "text", JValue.s "x"),
          ("pic", "image", JValue.obj [("url", JValue.s "u")])])) :=
  ⟨by decide,
    (c4_shape_equivalence _ (by decide)).1,
    (c4_shape_equivalence _ (by decide)).2.2 dlNone "P"⟩

/-! ## claim C5: iteration order of map-shaped collections -/

/-- Every slide the image loop emits is an image slide. -/
theorem fieldImage_is_image (dl : JValue → Option String)
    (p : JValue × JValue) (sl : RenderedSlide)
    (h : fieldImage dl p = some sl) : isImageSlideB sl = true := by
  unfold fieldImage at h
  split at h
  · split at h
    · split at h
      · cases h; rfl
      · exact absurd h (by simp)
    · exact absurd h (by simp)
  · exact absurd h (by simp)

/-- A run of image slides contributes no free text, no bullets, and
survives the image filter whole. -/
theorem all_images_obs (l : List RenderedSlide)
    (h : ∀ sl ∈ l, isImageSlideB sl = true) :
    slideTexts l = [] ∧ slideBullets l = [] ∧ l.filter isImageSlideB = l := by
  induction l with
  | nil => simp [slideTexts, slideBullets]
  | cons sl rest ih =>
    have hsl : isImageSlideB sl = true := h sl (List.mem_cons_self _ _)
    have hrest := ih (fun x hx => h x (List.mem_cons.mpr (Or.inr hx)))
    cases sl with
    | imageSlide path caption =>
      refine ⟨?_, ?_, ?_⟩
      · simpa [slideTexts] using hrest.1
      · simpa [slideBullets] using hrest.2.1
      · simp [List.filter_cons, isImageSlideB, hrest.2.2]
    | titleSlide a b => simp [isImageSlideB] at hsl
    | contentSlide a b c => simp [isImageSlideB] at hsl

/-- Every element of the image loop output is an image slide. -/
theorem imageSlides_all_images (dl : JValue → Option String) (F : Fields) :
    ∀ sl ∈ imageSlides dl F, isImageSlideB sl = true := by
  intro sl hsl
  obtain ⟨p, _, hfp⟩ := List.mem_filterMap.mp hsl
  exact fieldImage_is_image dl p sl hfp

/-- Normalizing a map-shaped collection tags its keys in entry
order. -/
theorem normalizeFields_obj (kvs : List (String × JValue)) :
    normalizeFields (JValue.obj kvs)
      = kvs.map (fun p => (JValue.s p.1, p.2)) := rfl

/-- The free-text loop over a normalized map reads the raw entries in
order. -/
theorem textFields_map_shape (kvs : List (String × JValue)) :
    textFields (kvs.map (fun p => (JValue.s p.1, p.2)))
      = kvs.filterMap mapEntryText := by
  unfold textFields
  rw [List.filterMap_map]
  rfl

/-- The bullet loop over a normalized map reads the raw entries in
order. -/
theorem bulletsOf_map_shape (kvs : List (String × JValue)) :
    bulletsOf (kvs.map (fun p => (JValue.s p.1, p.2)))
      = kvs.flatMap mapEntryBullets := by
  unfold bulletsOf
  rw [List.flatMap_map]
  rfl

/-- The image loop over a normalized map reads the raw entries in
order. -/
theorem imageSlides_map_shape (dl : JValue → Option String)
    (kvs : List (String × JValue)) :
    imageSlides dl (kvs.map (fun p => (JValue.s p.1, p.2)))
      = kvs.filterMap (mapEntryImage dl) := by
  unfold imageSlides
  rw [List.filterMap_map]
  rfl

/-- Counterexample for claim C5 as stated: a map-shaped collection with
entries keyed b then a emits its paragraphs in entry order x, y — not
in the lexicographic key order, which would emit y, x. -/
theorem c5_counterexample :
    slideTexts (renderSlideObj dlNone "Presentation" c5CexSlide) = ["x", "y"]
    ∧ specLexTexts
        (normalizeFields (pyGetD c5CexSlide "fields" (JValue.obj [])))
      = ["y", "x"]
    ∧ slideTexts (renderSlideObj dlNone "Presentation" c5CexSlide)
      ≠ specLexTexts
          (normalizeFields (pyGetD c5CexSlide "fields" (JValue.obj []))) := by
  refine ⟨rfl, rfl, ?_⟩
  intro h
  rw [show slideTexts (renderSlideObj dlNone "Presentation" c5CexSlide)
      = ["x", "y"] from rfl] at h
  rw [show specLexTexts
      (normalizeFields (pyGetD c5CexSlide "fields" (JValue.obj [])))
      = ["y", "x"] from rfl] at h
  simp at h

/-- Claim C5 amended: rendering iterates a map-shaped field collection
in the order its entries appear (Python dict insertion order), not in a
lexicographic fallback order: on the content path the emitted free-text
paragraphs, bullet lines and image slides are exactly the per-entry
contributions of the raw map, each in entry order. The iteration is
deterministic in the collection. -/
theorem c5_map_iteration_order (dl : JValue → Option String)
    (docTitle : String) (idv titlev : JValue)
    (kvs : List (String × JValue))
    (h1 : pyTruthy (fval (normalizeFields (JValue.obj kvs)) "title") = false)
    (h2 : pyTruthy (fval (normalizeFields (JValue.obj kvs)) "subtitle")
      = false) :
    slideTexts (renderSlideObj dl docTitle (JValue.obj
        [("id", idv), ("title", titlev), ("fields", JValue.obj kvs)]))
      = kvs.filterMap mapEntryText
    ∧ slideBullets (renderSlideObj dl docTitle (JValue.obj
        [("id", idv), ("title", titlev), ("fields", JValue.obj kvs)]))
      = kvs.flatMap mapEntryBullets
    ∧ (renderSlideObj dl docTitle (JValue.obj
        [("id", idv), ("title", titlev), ("fields", JValue.obj kvs)])).filter
          isImageSlideB
      = kvs.filterMap (mapEntryImage dl) := by
  have hobs := all_images_obs
    (imageSlides dl (normalizeFields (JValue.obj kvs)))
    (imageSlides_all_images dl (normalizeFields (JValue.obj kvs)))
  have hrender : renderSlideObj dl docTitle (JValue.obj
      [("id", idv), ("title", titlev), ("fields", JValue.obj kvs)])
      = RenderedSlide.contentSlide
          (pyStr (orChain [titlev,
            fval (normalizeFields (JValue.obj kvs)) "section",
            fval (normalizeFields (JValue.obj kvs)) "header",
            JValue.s (niceTitle (idString (JValue.obj
              [("id", idv), ("title", titlev), ("fields", JValue.obj kvs)]))),
            JValue.s docTitle]))
          (textFields (normalizeFields (JValue.obj kvs)))
          (bulletsOf (normalizeFields (JValue.obj kvs)))
        :: imageSlides dl (normalizeFields (JValue.obj kvs)) := by
    show renderSlideFields dl docTitle titlev _
        (normalizeFields (JValue.obj kvs)) = _
    unfold renderSlideFields
    rw [if_neg (by rw [h1, h2]; simp)]
  refine ⟨?_, ?_, ?_⟩
  · rw [hrender]
    show textFields (normalizeFields (JValue.obj kvs))
        ++ slideTexts (imageSlides dl (normalizeFields (JValue.obj kvs)))
      = _
    rw [hobs.1, normalizeFields_obj, textFields_map_shape]
    simp
  · rw [hrender]
    show bulletsOf (normalizeFields (JValue.obj kvs))
        ++ slideBullets (imageSlides dl (normalizeFields (JValue.obj kvs)))
      = _
    rw [hobs.2.1, normalizeFields_obj, bulletsOf_map_shape]
    simp
  · rw [hrender]
    rw [List.filter_cons]
    simp only [isImageSlideB]
    rw [hobs.2.2, normalizeFields_obj, imageSlides_map_shape]
    simp

/-- Witness for claim C5 amended at a concrete two-entry map in
non-lexicographic entry order. -/
theorem c5_witness :
    (pyTruthy (fval (normalizeFields (JValue.obj
        [("b", JValue.obj [("value", JValue.s "x")]),
         ("a", JValue.obj [("value", JValue.s "y")])])) "title") = false)
    ∧ (pyTruthy (fval (normalizeFields (JValue.obj
        [("b", JValue.obj [("value", JValue.s "x")]),
         ("a", JValue.obj [("value", JValue.s "y")])])) "subtitle") = false)
    ∧ slideTexts (renderSlideObj dlNone "P" (JValue.obj
        [("id", JValue.null), ("title", JValue.null),
         ("fields", JValue.obj
          [("b", JValue.obj [("value", JValue.s "x")]),
           ("a", JValue.obj [("value", JValue.s "y")])])]))
      = [("b", JValue.obj [("value", JValue.s "x")]),
         ("a", JValue.obj [("value", JValue.s "y")])].filterMap mapEntryText :=
  ⟨by decide, by decide,
    (c5_map_iteration_order dlNone "P" JValue.null JValue.null
      [("b", JValue.obj [("value", JValue.s "x")]),
       ("a", JValue.obj [("value", JValue.s "y")])]
      (by decide) (by decide)).1⟩

/-- Witness for claim C6 at a concrete five-bullet slide under the dark
grid style: the image is ignored and only four boxes appear. -/
theorem c6_witness :
    createGridLayout ⟨"G", "- a\n- b\n- c\n- d\n- e", none, none, "content"⟩
        (some "p") ((stylesList themeDark).getD 5 (junkStyle themeDark))
      = createGridLayout ⟨"G", "- a\n- b\n- c\n- d\n- e", none, none,
          "content"⟩ none ((stylesList themeDark).getD 5 (junkStyle themeDark))
    ∧ (createGridLayout ⟨"G", "- a\n- b\n- c\n- d\n- e", none, none,
          "content"⟩ (some "p")
          ((stylesList themeDark).getD 5 (junkStyle themeDark))).boxes.length
        ≤ 4
    ∧ ((createGridLayout ⟨"G", "- a\n- b\n- c\n- d\n- e", none, none,
          "content"⟩ (some "p")
          ((stylesList themeDark).getD 5 (junkStyle themeDark))).boxes.map
          (fun bx => bx.text)
        = ((gridContentLines
            (⟨"G", "- a\n- b\n- c\n- d\n- e", none, none,
              "content"⟩ : SlideData).content).take 4).map
            (fun l => String.mk (pyStrip ((pyStrip l).drop 1)))) :=
  ⟨(c6_grid_layout ⟨"G", "- a\n- b\n- c\n- d\n- e", none, none, "content"⟩
      ((stylesList themeDark).getD 5 (junkStyle themeDark))
      (some "p") none).1,
    (c6_grid_layout ⟨"G", "- a\n- b\n- c\n- d\n- e", none, none, "content"⟩
      ((stylesList themeDark).getD 5 (junkStyle themeDark))
      (some "p") none).2.1,
    (c6_grid_layout ⟨"G", "- a\n- b\n- c\n- d\n- e", none, none, "content"⟩
      ((stylesList themeDark).getD 5 (junkStyle themeDark))
      (some "p") none).2.2.1⟩

/-- Witness for claim C10 at a concrete mixed content string on the
image_left layout. -/
theorem c10_witness :
    filterContentForLayout
        (filterContentForLayout "- a\nkey insight\n- b" "image_left")
        "image_left"
      = filterContentForLayout "- a\nkey insight\n- b" "image_left" :=
  (c10_filter_idempotent "- a\nkey insight\n- b" "image_left").1
